import Mathlib

/-
Verification of the tiny-riscv-emulator core against its specification.

The definitions below are a shallow embedding of the Rust sources:
  src/lib.rs       (Priv)
  src/exception.rs (Exception)
  src/memory.rs    (Memory<MAX>)
  src/csr.rs       (Csr, read_raw_csr, read_csr, write_csr, ...)
  src/emulator.rs  (Emulator, exec and its helpers)

Host-level panics (array index / copy_from_slice length mismatches, unwrap
of Err, Priv::from on a reserved value, ...) are modeled by a dedicated
result constructor (crash); architectural exceptions returned through the
Result channel are modeled by an error constructor carrying the Exception
and, at instruction level, the partially mutated machine state, because
the Rust code mutates self in place before an early return.

Machine integers (u8/u32/u64) are modeled as Nat with explicit masking
(% 2 ^ 64, &&& 0xff, ...) exactly where the Rust code truncates or wraps.
Signed i32/i64 views are modeled through Int with truncating division.
-/

namespace RV

set_option maxRecDepth 8192

-- ---------------------------------------------------------------------------
-- src/lib.rs

-- pub enum Priv { U = 0, S = 1, M = 3 }
inductive Priv where
  | U : Priv
  | S : Priv
  | M : Priv
deriving DecidableEq

def Priv.toNat : Priv → Nat
  | .U => 0
  | .S => 1
  | .M => 3

-- impl From<u64> for Priv: panics on any value other than 0, 1, 3;
-- the panic is modeled by none.
def Priv.fromNat : Nat → Option Priv
  | 0 => some .U
  | 1 => some .S
  | 3 => some .M
  | _ => none

-- ---------------------------------------------------------------------------
-- src/exception.rs

inductive Exception where
  | InstructionAddressMissaligned : Exception
  | IllegralInstruction : Exception
  | EnvironmentCallFromUMode : Exception
  | EnvironmentCallFromSMode : Exception
  | EnvironmentCallFromMMode : Exception
deriving DecidableEq

-- Result channel of the Rust crate: ok carries the value, err an
-- architectural Exception, crash a host-level panic.
inductive Res (α : Type) where
  | crash : Res α
  | err : Exception → Res α
  | ok : α → Res α
deriving DecidableEq

def Res.bind {α β : Type} (x : Res α) (f : α → Res β) : Res β :=
  match x with
  | .crash => .crash
  | .err e => .err e
  | .ok a => f a

def Res.errKind {α : Type} : Res α → Option Exception
  | .err e => some e
  | _ => none

-- ---------------------------------------------------------------------------
-- 64-bit helpers (src/emulator.rs, top of file)

-- Rust u64 bitwise complement !x.
def compl64 (x : Nat) : Nat := x ^^^ 0xffffffffffffffff

-- fn sign_extend(bit: u8, v: u64) -> u64
-- mask = (u64::MAX >> 1) ^ (2^bit - 1); (mask + v) ^ mask, wrapping add.
def sign_extend (bit : Nat) (v : Nat) : Nat :=
  ((((0xffffffffffffffff >>> 1) ^^^ (2 ^ bit - 1)) + v) % 2 ^ 64) ^^^
    ((0xffffffffffffffff >>> 1) ^^^ (2 ^ bit - 1))

-- Two's-complement views used for the `as i64` / `as i32` casts.
def toI64 (x : Nat) : Int := if x % 2 ^ 64 < 2 ^ 63 then (x % 2 ^ 64 : Nat) else (x % 2 ^ 64 : Nat) - 2 ^ 64

def toI32 (x : Nat) : Int := if x % 2 ^ 32 < 2 ^ 31 then (x % 2 ^ 32 : Nat) else (x % 2 ^ 32 : Nat) - 2 ^ 32

-- Cast of a signed 64-bit result back to the u64 register file.
def fromI64 (i : Int) : Nat := (i % (2 ^ 64 : Int)).toNat

-- u32::from_le_bytes / u64::from_le_bytes; every element is a u8, modeled
-- by masking with 0xff.
def fromLeBytes (bs : List Nat) : Nat := bs.foldr (fun b acc => (b &&& 0xff) + 256 * acc) 0

-- (x as uN).to_le_bytes() for n bytes.
def toLeBytes (n x : Nat) : List Nat := (List.range n).map fun i => (x >>> (8 * i)) &&& 0xff

-- ---------------------------------------------------------------------------
-- src/memory.rs: Memory<const MAX: usize> { array: [u8; MAX] }
-- The array is modeled as a function from addresses to bytes, meaningful on
-- the interval [0, MAX).

-- <[u8]>::copy_from_slice into dst[start .. start+dstLen]: panics (none)
-- unless the destination length equals the source length.
def copyFromSlice (arr : Nat → Nat) (start dstLen : Nat) (src : List Nat) : Option (Nat → Nat) :=
  if dstLen = src.length then
    some (fun i => if start ≤ i ∧ i < start + dstLen then src.getD (i - start) 0 else arr i)
  else none

-- pub fn write(&mut self, address: usize, values: &[u8])
-- Mirrors the source exactly, including both copy_from_slice length guards:
--   if address + size > MAX:  self.array[address..] := values[..diff];
--                             self.array[..diff]   := values[diff..]
--   else:                     self.array[address..] := values
def Memory.write (MAX : Nat) (arr : Nat → Nat) (address : Nat) (values : List Nat) :
    Option (Nat → Nat) :=
  let size := values.length
  if size / MAX > 1 then none
  else
    let a := address % MAX
    if a + size > MAX then
      let diff := MAX - a
      if diff ≤ size then
        match copyFromSlice arr a (MAX - a) (values.take diff) with
        | none => none
        | some arr1 => copyFromSlice arr1 0 diff (values.drop diff)
      else none
    else
      copyFromSlice arr a (MAX - a) values

-- pub fn read<const SIZE: usize>(&self, address: usize) -> [u8; SIZE]
-- In the wrapping branch both copy_from_slice calls write the whole local
-- array (length SIZE); the first requires SIZE = MAX - address, which
-- contradicts address + SIZE > MAX, so that branch always panics.
def Memory.read (MAX : Nat) (arr : Nat → Nat) (size address : Nat) : Option (List Nat) :=
  if size / MAX > 1 then none
  else
    let a := address % MAX
    if a + size > MAX then
      if size = MAX - a then
        if size = size - (MAX - a) then some ((List.range size).map fun i => arr i) else none
      else none
    else
      some ((List.range size).map fun i => arr (a + i))

-- pub fn load(&mut self, filename) modeled on the byte level: the file
-- contents replace the array, zero padded; a file larger than MAX panics.
def Memory.load (MAX : Nat) (buf : List Nat) : Option (Nat → Nat) :=
  if buf.length > MAX then none
  else some (fun i => if i < buf.length then buf.getD i 0 else 0)

-- ---------------------------------------------------------------------------
-- src/csr.rs: struct Csr

structure Csr where
  stvec : Nat
  scounteren : Nat
  sepc : Nat
  satp : Nat
  mstatus : Nat
  misa : Nat
  mtvec : Nat
  medeleg : Nat
  mideleg : Nat
  mie : Nat
  mcounteren : Nat
  mscratch : Nat
  mepc : Nat
  mcause : Nat
  mtval : Nat
  mip : Nat
  pmpcfg0 : Nat
  pmpaddr0 : Nat
  mnstatus : Nat
  mcycle : Nat

-- impl Default for Csr
def Csr.default : Csr where
  stvec := 0
  scounteren := 0
  sepc := 0
  satp := 0
  mstatus := 0xa00000000          -- CSR_MSTATUS_XXL_MASK = 0xa << 32
  misa := 0x8000000000141105      -- (1 << 63) | 0x141105
  mtvec := 0
  medeleg := 0
  mideleg := 0
  mie := 0
  mcounteren := 0
  mscratch := 0
  mepc := 0
  mcause := 0
  mtval := 0
  mip := 0
  pmpcfg0 := 0
  pmpaddr0 := 0
  mnstatus := 0
  mcycle := 0

-- ---------------------------------------------------------------------------
-- src/emulator.rs: struct Emulator (MEMORY_SIZE = 1024 * 1024)

def MEMORY_SIZE : Nat := 1024 * 1024

structure Emulator where
  mem : Nat → Nat
  regs : Nat → Nat                 -- [u64; 31]; index i holds register x(i+1)
  csr : Csr
  pc : Nat
  current_priv : Priv
  instruction : Nat                -- u32
  reserved_memory_ranges : List (Nat × Nat)
  c_instruction : Nat              -- u16
  riscv_tests_finished : Bool
  riscv_tests_exit_memory_address : Nat

-- Register type from the (not included) src/register.rs, as used by
-- read_reg / write_reg: general register X(i) or the program counter.
inductive Register where
  | X : Nat → Register
  | Pc : Register

-- fn read_reg: X(0) reads 0, X(i) with i > 31 panics, otherwise regs[i-1].
def Emulator.read_reg (st : Emulator) (r : Register) : Res Nat :=
  match r with
  | .X i => if i = 0 then .ok 0 else if i > 31 then .crash else .ok (st.regs (i - 1))
  | .Pc => .ok st.pc

-- fn write_reg: X(0) discards, X(i) with i > 31 panics.
def Emulator.write_reg (st : Emulator) (r : Register) (v : Nat) : Res Emulator :=
  match r with
  | .X i =>
    if i = 0 then .ok st
    else if i > 31 then .crash
    else .ok { st with regs := fun j => if j = i - 1 then v else st.regs j }
  | .Pc => .ok { st with pc := v }

-- fn read_raw_csr (src/csr.rs)
def Emulator.read_raw_csr (st : Emulator) (c : Nat) : Res Nat :=
  if c = 0x100 then .ok (st.csr.mstatus &&& 0x122)
  else if c = 0x141 then .ok st.csr.sepc
  else if c = 0x180 then .ok st.csr.satp
  else if c = 0x300 then .ok st.csr.mstatus
  else if c = 0x301 then .ok st.csr.misa
  else if c = 0x302 then .ok st.csr.medeleg
  else if c = 0x303 then .ok st.csr.mideleg
  else if c = 0x304 then .ok st.csr.mie
  else if c = 0x305 then .ok st.csr.mtvec
  else if c = 0x306 then .ok st.csr.mcounteren
  else if c = 0x340 then .ok st.csr.mscratch
  else if c = 0x341 then .ok st.csr.mepc
  else if c = 0x342 then .ok st.csr.mcause
  else if c = 0x343 then .ok st.csr.mtval
  else if c = 0x344 then .ok st.csr.mip
  else if c = 0x800 ∨ c = 0xc00 then .ok st.csr.mcycle
  else if c = 0xf11 then .ok 0xba5eba11
  else if c = 0xf12 then .ok 0x05500550
  else if c = 0xf13 then .ok 0x1
  else if c = 0xf14 then .ok 0
  else .err .IllegralInstruction

-- fn check_csr_priv
def Emulator.check_csr_priv (st : Emulator) (c : Nat) : Res Unit :=
  if (c >>> 8) &&& 0x3 > st.current_priv.toNat then .err .IllegralInstruction else .ok ()

-- fn read_csr; a csr address with nonzero top bits panics.
def Emulator.read_csr (st : Emulator) (c : Nat) : Res Nat :=
  if c >>> 12 ≠ 0 then .crash
  else
    (st.check_csr_priv c).bind fun _ =>
      if c = 0xc00 then
        if st.current_priv ≠ .M ∧ st.csr.mcounteren &&& 0x1 = 0 then .err .IllegralInstruction
        else st.read_raw_csr c
      else st.read_raw_csr c

-- fn is_c_extension_enabled
def Emulator.is_c_extension_enabled (st : Emulator) : Bool := (st.csr.misa &&& 0x4) ≠ 0

-- fn check_misaligned_nbyte_misaligned
def Emulator.check_misaligned_nbyte_misaligned (st : Emulator) (address n : Nat) : Res Unit :=
  if address % n = 0 then .ok () else .err .InstructionAddressMissaligned

-- fn check_misaligned: no check at all when the C extension is enabled.
def Emulator.check_misaligned (st : Emulator) (address : Nat) : Res Unit :=
  if ¬ st.is_c_extension_enabled then st.check_misaligned_nbyte_misaligned address 4
  else .ok ()

-- fn set_c_extenstion (name kept from the source)
def Emulator.set_c_extenstion (st : Emulator) (enabled : Bool) : Emulator :=
  if enabled then { st with csr := { st.csr with misa := st.csr.misa ||| 4 } }
  else
    match st.check_misaligned_nbyte_misaligned ((st.pc + 2) % 2 ^ 64) 4 with
    | .ok _ => { st with csr := { st.csr with misa := st.csr.misa &&& compl64 4 } }
    | _ => st

-- The inner filter of the mcause arm of write_csr: the value the written
-- word is ANDed with (note the Rust arm shadows `value` with the cause
-- stripped of its interrupt bit).
def mcauseFilter (v : Nat) : Nat :=
  if v >>> 63 = 1 then
    if (v &&& compl64 (1 <<< 63)) = 1 ∨ (v &&& compl64 (1 <<< 63)) = 3 ∨
        (v &&& compl64 (1 <<< 63)) = 5 ∨ (v &&& compl64 (1 <<< 63)) = 7 ∨
        (v &&& compl64 (1 <<< 63)) = 9 ∨ (v &&& compl64 (1 <<< 63)) = 11 ∨
        (v &&& compl64 (1 <<< 63)) = 13 then v &&& compl64 (1 <<< 63) else 0
  else
    if v ≤ 9 ∨ v = 11 ∨ v = 12 ∨ v = 13 ∨ v = 15 ∨ v = 18 ∨ v = 19 then v else 0

-- fn write_csr (src/csr.rs). Masks and validity filters follow the source
-- arm by arm; arms that only print a warning are modeled by the store alone.
def Emulator.write_csr (st : Emulator) (c v : Nat) : Res Emulator :=
  if c >>> 12 ≠ 0 then .crash
  else if (c >>> 10) &&& 0x3 = 0x3 then .err .IllegralInstruction
  else
    match st.check_csr_priv c with
    | .crash => .crash
    | .err e => .err e
    | .ok _ =>
      if c = 0x100 then
        if v &&& 0x800000010001e640 ≠ 0 then .err .IllegralInstruction
        else .ok { st with csr :=
          { st.csr with mstatus := (st.csr.mstatus &&& compl64 0x122) ||| (v &&& 0x122) } }
      else if c = 0x105 then
        .ok { st with csr := { st.csr with stvec := v &&& 0xfffffffffffffffd } }
      else if c = 0x106 then
        .ok { st with csr := { st.csr with scounteren := v } }
      else if c = 0x141 then
        .ok { st with csr := { st.csr with sepc := v &&& 0xfffffffffffffffc } }
      else if c = 0x180 then
        if v ≠ 0 then .err .IllegralInstruction else .ok st
      else if c = 0x300 then
        if v &&& 0x80000005002fe640 ≠ 0 then .err .IllegralInstruction
        else .ok { st with csr :=
          { st.csr with mstatus := (v &&& 0x4019aa) ||| 0xa00000000 } }
      else if c = 0x301 then
        .ok (st.set_c_extenstion (((v >>> 2) &&& 0x1) = 1))
      else if c = 0x305 then
        .ok { st with csr := { st.csr with mtvec := v &&& 0xfffffffffffffffd } }
      else if c = 0x302 then
        .ok { st with csr := { st.csr with medeleg := v &&& 0xcbbff } }
      else if c = 0x303 then
        .ok { st with csr := { st.csr with mideleg := v &&& 0x2aaa } }
      else if c = 0x304 then
        .ok { st with csr := { st.csr with mie := v &&& 0xaaa } }
      else if c = 0x306 then
        .ok { st with csr := { st.csr with mcounteren := v } }
      else if c = 0x340 then
        .ok { st with csr := { st.csr with mscratch := v } }
      else if c = 0x341 then
        .ok { st with csr := { st.csr with mepc := v &&& 0xfffffffffffffffc } }
      else if c = 0x342 then
        .ok { st with csr := { st.csr with mcause := v &&& mcauseFilter v } }
      else if c = 0x343 then
        .ok { st with csr := { st.csr with mtval := v } }
      else if c = 0x344 then
        .ok { st with csr := { st.csr with mip := v &&& 0xaaa } }
      else if c = 0x3a0 then
        .ok { st with csr := { st.csr with pmpcfg0 := v } }
      else if c = 0x3b0 then
        .ok { st with csr := { st.csr with pmpaddr0 := v &&& 0x3ffffffffffff } }
      else if c = 0x744 then
        .ok { st with csr := { st.csr with mnstatus := v &&& 0x8 } }
      else if c = 0xf14 then .ok st
      else .err .IllegralInstruction

-- fn read_memory (panic on a Memory::read panic)
def Emulator.read_memory (st : Emulator) (size address : Nat) : Res (List Nat) :=
  match Memory.read MEMORY_SIZE st.mem size address with
  | none => .crash
  | some bs => .ok bs

-- fn write_memory: sets the finished flag when the exit sentinel address is
-- written, then delegates to Memory::write.
def Emulator.write_memory (st : Emulator) (address : Nat) (values : List Nat) : Res Emulator :=
  let st1 :=
    if address = st.riscv_tests_exit_memory_address then
      { st with riscv_tests_finished := true }
    else st
  match Memory.write MEMORY_SIZE st1.mem address values with
  | none => .crash
  | some m => .ok { st1 with mem := m }

-- fn push_reserved_memory_range: drop every stored interval that overlaps
-- the new one, then push it at the end of the vector.
def Emulator.push_reserved_memory_range (st : Emulator) (range : Nat × Nat) : Emulator :=
  { st with reserved_memory_ranges :=
      (st.reserved_memory_ranges.filter fun r => range.2 < r.1 ∨ range.1 > r.2) ++ [range] }

-- fn pop_reserved_memory_range: Vec::pop removes the last element.
def Emulator.pop_reserved_memory_range (st : Emulator) : Option (Nat × Nat) × Emulator :=
  match st.reserved_memory_ranges.getLast? with
  | none => (none, st)
  | some r =>
    (some r, { st with reserved_memory_ranges := st.reserved_memory_ranges.dropLast })

-- pub fn load (src/emulator.rs): resets registers, pc, CSRs and the finished
-- flag, then loads the file image into memory. Neither current_priv nor the
-- reservation set is touched.
def Emulator.load (st : Emulator) (file : List Nat) : Option Emulator :=
  let st1 := { st with
    regs := fun _ => 0
    pc := 0
    csr := Csr.default
    riscv_tests_finished := false }
  match Memory.load MEMORY_SIZE file with
  | none => none
  | some m => some { st1 with mem := m }

-- ---------------------------------------------------------------------------
-- fn exec and helpers

inductive EmulatorFlag where
  | Jump : EmulatorFlag
  | Common : EmulatorFlag
  | ExeC : EmulatorFlag
deriving DecidableEq

-- Result of exec: ok carries the mutated state and the flag; trap carries the
-- Exception together with the state as mutated up to the early return; crash
-- is a host panic; unmodeled marks instruction classes outside this
-- development (the C-extension interpreter, WFI, and most ALU opcodes).
inductive ExecRes where
  | unmodeled : ExecRes
  | crash : ExecRes
  | trap : Exception → Emulator → ExecRes
  | ok : Emulator → EmulatorFlag → ExecRes

def ExecRes.okState : ExecRes → Option Emulator
  | .ok st _ => some st
  | _ => none

def ExecRes.okFlag : ExecRes → Option EmulatorFlag
  | .ok _ f => some f
  | _ => none

def ExecRes.trapKind : ExecRes → Option Exception
  | .trap e _ => some e
  | _ => none

def ExecRes.trapState : ExecRes → Option Emulator
  | .trap _ s => some s
  | _ => none

-- SC.W arm (emulator.rs, inside the op 0b01011 / funct3 0b010 case).
def Emulator.scW (st : Emulator) (rd rs2 addr : Nat) : ExecRes :=
  match st.pop_reserved_memory_range with
  | (some range, st1) =>
    if range.1 ≤ addr ∧ range.2 ≥ addr + 4 then
      match st1.read_reg (.X rs2) with
      | .crash => .crash
      | .err e => .trap e st1
      | .ok rs2v =>
        match st1.write_memory addr (toLeBytes 4 (rs2v % 2 ^ 32)) with
        | .crash => .crash
        | .err e => .trap e st1
        | .ok st2 =>
          match st2.write_reg (.X rd) 0 with
          | .crash => .crash
          | .err e => .trap e st2
          | .ok st3 => .ok st3 .Common
    else
      match st1.write_reg (.X rd) 1 with
      | .crash => .crash
      | .err e => .trap e st1
      | .ok st2 => .ok st2 .Common
  | (none, st1) =>
    match st1.write_reg (.X rd) 1 with
    | .crash => .crash
    | .err e => .trap e st1
    | .ok st2 => .ok st2 .Common

-- AMO*.W / LR.W arms (f72 = funct7 >> 2). Every arm except the reserved ones
-- falls through to the final write of the sign-extended old value into rd.
def Emulator.amoW (st : Emulator) (rd rs2 f72 addr : Nat) : ExecRes :=
  match st.read_memory 4 addr with
  | .crash => .crash
  | .err e => .trap e st
  | .ok bytes =>
    let v := fromLeBytes bytes
    match st.read_reg (.X rs2) with
    | .crash => .crash
    | .err e => .trap e st
    | .ok rs2v =>
      let w32 := rs2v % 2 ^ 32
      let armRes : Res Emulator :=
        if f72 = 0 then st.write_memory addr (toLeBytes 4 ((v + w32) % 2 ^ 32))
        else if f72 = 1 then
          -- AMOSWAP.W: stores rs2 and then writes the old value into the
          -- register rs2 (sic, the source writes Register::X(rs2)).
          match st.write_memory addr (toLeBytes 4 w32) with
          | .ok st1 => st1.write_reg (.X rs2) v
          | r => r
        else if f72 = 2 then
          -- LR.W: writes rd and pushes the reservation.
          match st.write_reg (.X rd) (sign_extend 31 v) with
          | .ok st1 => .ok (st1.push_reserved_memory_range (addr, addr + 4))
          | r => r
        else if f72 = 4 then st.write_memory addr (toLeBytes 4 (v ^^^ w32))
        else if f72 = 12 then st.write_memory addr (toLeBytes 4 (v &&& w32))
        else if f72 = 8 then st.write_memory addr (toLeBytes 4 (v ||| w32))
        else if f72 = 16 then
          st.write_memory addr (toLeBytes 4 (if toI32 w32 > toI32 v then v else w32))
        else if f72 = 20 then
          st.write_memory addr (toLeBytes 4 (if toI32 v > toI32 w32 then v else w32))
        else if f72 = 24 then st.write_memory addr (toLeBytes 4 (min v w32))
        else if f72 = 28 then st.write_memory addr (toLeBytes 4 (max v w32))
        else .err .IllegralInstruction
      match armRes with
      | .crash => .crash
      | .err e => .trap e st
      | .ok st1 =>
        match st1.write_reg (.X rd) (sign_extend 31 v) with
        | .crash => .crash
        | .err e => .trap e st1
        | .ok st2 => .ok st2 .Common

-- AMO*.D arms; there is no LR.D/SC.D arm in the source, those encodings fall
-- through to IllegalInstruction.
def Emulator.amoD (st : Emulator) (rd rs2 f72 addr : Nat) : ExecRes :=
  match st.read_memory 8 addr with
  | .crash => .crash
  | .err e => .trap e st
  | .ok bytes =>
    let v := fromLeBytes bytes
    match st.read_reg (.X rs2) with
    | .crash => .crash
    | .err e => .trap e st
    | .ok rs2v =>
      let armRes : Res Emulator :=
        if f72 = 0 then st.write_memory addr (toLeBytes 8 ((v + rs2v) % 2 ^ 64))
        else if f72 = 1 then
          match st.write_memory addr (toLeBytes 8 rs2v) with
          | .ok st1 => st1.write_reg (.X rs2) v
          | r => r
        else if f72 = 4 then st.write_memory addr (toLeBytes 8 (v ^^^ rs2v))
        else if f72 = 12 then st.write_memory addr (toLeBytes 8 (v &&& rs2v))
        else if f72 = 8 then st.write_memory addr (toLeBytes 8 (v ||| rs2v))
        else if f72 = 16 then
          st.write_memory addr (toLeBytes 8 (if toI64 rs2v > toI64 v then v else rs2v))
        else if f72 = 20 then
          st.write_memory addr (toLeBytes 8 (if toI64 v > toI64 rs2v then v else rs2v))
        else if f72 = 24 then st.write_memory addr (toLeBytes 8 (min v rs2v))
        else if f72 = 28 then st.write_memory addr (toLeBytes 8 (max v rs2v))
        else .err .IllegralInstruction
      match armRes with
      | .crash => .crash
      | .err e => .trap e st
      | .ok st1 =>
        match st1.write_reg (.X rd) v with
        | .crash => .crash
        | .err e => .trap e st1
        | .ok st2 => .ok st2 .Common

-- op 0b01011 (A extension).
def Emulator.execAtomic (st : Emulator) (funct3 : Nat) : ExecRes :=
  let rd := (st.instruction >>> 7) &&& 0x1f
  let rs1 := (st.instruction >>> 15) &&& 0x1f
  let rs2 := (st.instruction >>> 20) &&& 0x1f
  let funct7 := st.instruction >>> 25
  match st.read_reg (.X rs1) with
  | .crash => .crash
  | .err e => .trap e st
  | .ok addr =>
    if funct3 = 2 then
      match st.check_misaligned addr with
      | .crash => .crash
      | .err e => .trap e st
      | .ok _ =>
        if funct7 >>> 2 = 3 then st.scW rd rs2 addr
        else st.amoW rd rs2 (funct7 >>> 2) addr
    else if funct3 = 3 then
      match st.check_misaligned_nbyte_misaligned addr 8 with
      | .crash => .crash
      | .err e => .trap e st
      | .ok _ => st.amoD rd rs2 (funct7 >>> 2) addr
    else .trap .IllegralInstruction st

-- DIV (op 0b01100, funct3 0b100, funct7 0b0000001).
def div64 (x y : Nat) : Nat :=
  if x = 2 ^ 63 ∧ y = 0xffffffffffffffff then x
  else if y = 0 then 0xffffffffffffffff
  else fromI64 ((toI64 x).tdiv (toI64 y))

-- DIVU (op 0b01100, funct3 0b101, funct7 0b0000001).
def divu64 (x y : Nat) : Nat := if y = 0 then 0xffffffffffffffff else x / y

-- REM (op 0b01100, funct3 0b110, funct7 0b0000001).
def rem64 (x y : Nat) : Nat :=
  if x = 2 ^ 63 ∧ y = 0xffffffffffffffff then 0
  else if y = 0 then x
  else fromI64 ((toI64 x).tmod (toI64 y))

-- REMU (op 0b01100, funct3 0b111, funct7 0b0000001).
def remu64 (x y : Nat) : Nat := if y = 0 then x else x % y

-- op 0b01100: only the DIV / DIVU / REM / REMU arms are modeled.
def Emulator.execOp (st : Emulator) (funct3 : Nat) : ExecRes :=
  let rd := (st.instruction >>> 7) &&& 0x1f
  let rs1 := (st.instruction >>> 15) &&& 0x1f
  let rs2 := (st.instruction >>> 20) &&& 0x1f
  let funct7 := st.instruction >>> 25
  if funct7 = 1 ∧ (funct3 = 4 ∨ funct3 = 5 ∨ funct3 = 6 ∨ funct3 = 7) then
    match st.read_reg (.X rs1) with
    | .crash => .crash
    | .err e => .trap e st
    | .ok x =>
      match st.read_reg (.X rs2) with
      | .crash => .crash
      | .err e => .trap e st
      | .ok y =>
        let r :=
          if funct3 = 4 then div64 x y
          else if funct3 = 5 then divu64 x y
          else if funct3 = 6 then rem64 x y
          else remu64 x y
        match st.write_reg (.X rd) r with
        | .crash => .crash
        | .err e => .trap e st
        | .ok st1 => .ok st1 .Common
  else .unmodeled

-- SRET (instruction 0x10200073). Both write_csr and read_csr results are
-- unwrapped in the source, so an Err there is a host panic.
def Emulator.execSret (st : Emulator) : ExecRes :=
  match st.current_priv with
  | .U => .trap .IllegralInstruction st
  | _ =>
    if st.current_priv = .S ∧ st.csr.mstatus &&& 0x400000 ≠ 0 then
      .trap .IllegralInstruction st
    else
      match st.write_csr 0x100
          ((st.csr.mstatus &&& compl64 0x122 &&& compl64 0x100 &&& compl64 0x20 &&&
              compl64 0x2) |||
            (0 <<< 8) ||| (1 <<< 8) ||| (((st.csr.mstatus &&& 0x20) >>> 5) <<< 1)) with
      | .ok st1 =>
        match st1.read_csr 0x141 with
        | .ok sepcVal =>
          match st1.write_reg .Pc sepcVal with
          | .ok st2 =>
            match Priv.fromNat ((st.csr.mstatus &&& 0x100) >>> 8) with
            | some p => .ok { st2 with current_priv := p } .Jump
            | none => .crash
          | _ => .crash
        | _ => .crash
      | _ => .crash

-- MRET (instruction 0x30200073), M mode only.
def Emulator.execMret (st : Emulator) : ExecRes :=
  match st.current_priv with
  | .M =>
    match st.write_csr 0x300
        ((st.csr.mstatus &&& compl64 0x8 &&& compl64 0x1800 &&& compl64 0x80) |||
          (((st.csr.mstatus &&& 0x80) >>> 7) <<< 3) ||| (1 <<< 7) ||| (0 <<< 11)) with
    | .ok st1 =>
      match st1.read_csr 0x341 with
      | .ok mepcVal =>
        match st1.write_reg .Pc mepcVal with
        | .ok st2 =>
          match Priv.fromNat ((st.csr.mstatus &&& 0x1800) >>> 11) with
          | some p => .ok { st2 with current_priv := p } .Jump
          | none => .crash
        | _ => .crash
      | _ => .crash
    | _ => .crash
  | _ => .trap .IllegralInstruction st

-- CSRRW (funct3 0b001).
def Emulator.execCsrrw (st : Emulator) (rd rs1 imm : Nat) : ExecRes :=
  match (if rd ≠ 0 then st.read_csr imm else .ok 0 : Res Nat) with
  | .crash => .crash
  | .err e => .trap e st
  | .ok c =>
    match st.read_reg (.X rs1) with
    | .crash => .crash
    | .err e => .trap e st
    | .ok v =>
      match st.write_csr imm v with
      | .crash => .crash
      | .err e => .trap e st
      | .ok st1 =>
        if rd ≠ 0 then
          match st1.write_reg (.X rd) c with
          | .crash => .crash
          | .err e => .trap e st1
          | .ok st2 => .ok st2 .Common
        else .ok st1 .Common

-- CSRRS / CSRRC (funct3 0b010 / 0b011): the destination register is written
-- before the conditional CSR write.
def Emulator.execCsrrsc (st : Emulator) (clear : Bool) (rd rs1 imm : Nat) : ExecRes :=
  match st.read_csr imm with
  | .crash => .crash
  | .err e => .trap e st
  | .ok c =>
    match st.read_reg (.X rs1) with
    | .crash => .crash
    | .err e => .trap e st
    | .ok v =>
      match st.write_reg (.X rd) c with
      | .crash => .crash
      | .err e => .trap e st
      | .ok st1 =>
        if v ≠ 0 then
          match st1.write_csr imm (if clear then c &&& compl64 v else c ||| v) with
          | .crash => .crash
          | .err e => .trap e st1
          | .ok st2 => .ok st2 .Common
        else .ok st1 .Common

-- CSRRWI (funct3 0b101): the 5-bit rs1 field is the value.
def Emulator.execCsrrwi (st : Emulator) (rd rs1 imm : Nat) : ExecRes :=
  match (if rd ≠ 0 then st.read_csr imm else .ok 0 : Res Nat) with
  | .crash => .crash
  | .err e => .trap e st
  | .ok c =>
    match st.write_csr imm rs1 with
    | .crash => .crash
    | .err e => .trap e st
    | .ok st1 =>
      if rd ≠ 0 then
        match st1.write_reg (.X rd) c with
        | .crash => .crash
        | .err e => .trap e st1
        | .ok st2 => .ok st2 .Common
      else .ok st1 .Common

-- CSRRSI / CSRRCI (funct3 0b110 / 0b111). Note that the CSRRCI mask is the
-- u8 complement of the rs1 field cast to u64, as in the source
-- (csr & !rs1 as u64).
def Emulator.execCsrrsci (st : Emulator) (clear : Bool) (rd rs1 imm : Nat) : ExecRes :=
  match st.read_csr imm with
  | .crash => .crash
  | .err e => .trap e st
  | .ok c =>
    match st.write_reg (.X rd) c with
    | .crash => .crash
    | .err e => .trap e st
    | .ok st1 =>
      if rs1 ≠ 0 then
        match st1.write_csr imm (if clear then c &&& (rs1 ^^^ 0xff) else c ||| rs1) with
        | .crash => .crash
        | .err e => .trap e st1
        | .ok st2 => .ok st2 .Common
      else .ok st1 .Common

-- op 0b11100 (system and Zicsr).
def Emulator.execSystem (st : Emulator) (funct3 : Nat) : ExecRes :=
  let rd := (st.instruction >>> 7) &&& 0x1f
  let rs1 := (st.instruction >>> 15) &&& 0x1f
  let imm := st.instruction >>> 20
  if funct3 = 0 then
    if st.instruction >>> 25 = 0b0001001 then
      -- SFENCE.VMA: panics outside S mode, IllegalInstruction in S mode.
      if st.current_priv ≠ .S then .crash else .trap .IllegralInstruction st
    else if st.instruction = 0x73 then
      match st.current_priv with
      | .M => .trap .EnvironmentCallFromMMode st
      | .S => .trap .EnvironmentCallFromSMode st
      | .U => .trap .EnvironmentCallFromUMode st
    else if st.instruction = 0x10200073 then st.execSret
    else if st.instruction = 0x10500073 then .unmodeled
    else if st.instruction = 0x30200073 then st.execMret
    else .trap .IllegralInstruction st
  else if funct3 = 1 then st.execCsrrw rd rs1 imm
  else if funct3 = 2 then st.execCsrrsc false rd rs1 imm
  else if funct3 = 3 then st.execCsrrsc true rd rs1 imm
  else if funct3 = 5 then st.execCsrrwi rd rs1 imm
  else if funct3 = 6 then st.execCsrrsci false rd rs1 imm
  else if funct3 = 7 then st.execCsrrsci true rd rs1 imm
  else .trap .IllegralInstruction st

-- fn exec: dispatch. The C-extension interpreter (c_exec) and the opcode
-- families no claim is about are marked unmodeled.
def Emulator.exec (st0 : Emulator) : ExecRes :=
  if st0.instruction = 0 then .trap .IllegralInstruction st0
  else if st0.is_c_extension_enabled ∧ st0.instruction &&& 0x3 < 3 then .unmodeled
  else
    let st := { st0 with c_instruction := 0 }
    if st.instruction &&& 0x3 ≠ 3 then .trap .IllegralInstruction st
    else
      let op := (st.instruction >>> 2) &&& 0x1f
      let funct3 := (st.instruction >>> 12) &&& 0x7
      if op = 0b01011 then st.execAtomic funct3
      else if op = 0b01100 then st.execOp funct3
      else if op = 0b11100 then st.execSystem funct3
      else .unmodeled

-- ---------------------------------------------------------------------------
-- Bitwise toolkit

lemma or_and_distrib (a b c : Nat) : (a ||| b) &&& c = (a &&& c) ||| (b &&& c) := by
  apply Nat.eq_of_testBit_eq
  intro i
  simp [Nat.testBit_and, Nat.testBit_or, Bool.and_or_distrib_right]

lemma and_shiftRight (a b k : Nat) : (a &&& b) >>> k = (a >>> k) &&& (b >>> k) := by
  apply Nat.eq_of_testBit_eq
  intro i
  simp [Nat.testBit_and, Nat.testBit_shiftRight]

lemma or_shiftRight (a b k : Nat) : (a ||| b) >>> k = (a >>> k) ||| (b >>> k) := by
  apply Nat.eq_of_testBit_eq
  intro i
  simp [Nat.testBit_or, Nat.testBit_shiftRight]

-- Field extraction from a value of the shape (a &&& K) ||| C where the kept
-- mask K has no bit inside the extracted field.
lemma bitfield_of_masked (a K C j w : Nat) (h : (K >>> j) &&& w = 0) :
    (((a &&& K) ||| C) >>> j) &&& w = (C >>> j) &&& w := by
  rw [or_shiftRight, or_and_distrib, and_shiftRight, Nat.and_assoc, h, Nat.and_zero,
    Nat.zero_or]

-- Read-back through a mask after a merge-update, as the sstatus arm of
-- write_csr performs it.
lemma masked_merge_readback (a v m : Nat) (h : compl64 m &&& m = 0) :
    ((a &&& compl64 m) ||| (v &&& m)) &&& m = v &&& m := by
  rw [or_and_distrib, Nat.and_assoc, h, Nat.and_zero, Nat.zero_or, Nat.and_assoc,
    Nat.and_self]

-- An AND with a disjoint concrete mask vanishes.
lemma and_of_and_eq_zero (a K R : Nat) (hKR : K &&& R = R) (h : a &&& R = 0) :
    (a &&& K) &&& R = 0 := by
  rw [Nat.and_assoc, hKR, h]

-- ---------------------------------------------------------------------------
-- Concrete machine states used by the evaluation theorems

def baseState : Emulator where
  mem := fun _ => 0
  regs := fun _ => 0
  csr := Csr.default
  pc := 0
  current_priv := .M
  instruction := 0
  reserved_memory_ranges := []
  c_instruction := 0
  riscv_tests_finished := false
  riscv_tests_exit_memory_address := 0x1000

-- ---------------------------------------------------------------------------
-- Claim C1

/-- Claim C1 states that Memory::write(a, vs) with 1 <= |vs| <= 8 never
panics and stores byte i of vs at ((a mod size) + i) mod size. In the
source the non-wrapping branch copies vs into self.array[address..], a
destination slice of length MAX - address, so copy_from_slice panics
whenever (a mod MAX) + |vs| < MAX, which is the common case; this theorem
proves the panic for every such input. -/
theorem claim1_memory_write_panics (MAX : Nat) (arr : Nat → Nat) (a : Nat) (vs : List Nat)
    (h : a % MAX + vs.length < MAX) :
    Memory.write MAX arr a vs = none := by
  have h0 : vs.length / MAX = 0 := Nat.div_eq_of_lt (by omega)
  have h1 : ¬ (a % MAX + vs.length > MAX) := by omega
  have h2 : MAX - a % MAX ≠ vs.length := by omega
  simp [Memory.write, copyFromSlice, h0, h1, h2]

/-- Witness for claim C1 at the concrete input Memory<8>::write(0, [42]). -/
theorem claim1_memory_write_panics_witness :
    0 % 8 + [(42 : Nat)].length < 8 ∧ Memory.write 8 (fun _ => 0) 0 [42] = none :=
  ⟨by decide, claim1_memory_write_panics 8 (fun _ => 0) 0 [42] (by decide)⟩

-- ---------------------------------------------------------------------------
-- Claim C2

def claim2State : Emulator :=
  { baseState with
    instruction := 0x10200073
    csr := { Csr.default with mstatus := 0xa00000020, sepc := 0x100 } }

/-- Claim C2 states that after SRET (here in M-mode, with mstatus holding
SPIE = 1 and SPP = 0 and sepc = 0x100) the machine has SIE = old SPIE (1),
SPIE = 1, SPP = U (0), privilege = old SPP (U) and pc = sepc. The code
instead produces mstatus = 0xa00000102: SIE (bit 1) = 1, privilege = U and
pc = 0x100 as claimed, but SPIE (bit 5) = 0 and SPP (bit 8) = 1, because
the source ORs 1 << 8 (the SPP bit) where the analogous MRET code ORs the
xPIE bit. This refutes the SPIE and SPP parts of the claim. -/
theorem claim2_sret_wrong_spie_spp :
    (claim2State.csr.mstatus >>> 5) &&& 1 = 1 ∧
    (claim2State.csr.mstatus >>> 8) &&& 1 = 0 ∧
    (Emulator.exec claim2State).okState.map
        (fun s => ((s.csr.mstatus >>> 1) &&& 1, (s.csr.mstatus >>> 5) &&& 1,
          (s.csr.mstatus >>> 8) &&& 1, s.current_priv, s.pc)) =
      some (1, 0, 1, .U, 0x100) := by decide

-- ---------------------------------------------------------------------------
-- Claim C3

-- AMOSWAP.W x3, x2, (x1): funct7 = 0b0000100, rs2 = x2, rs1 = x1,
-- funct3 = 0b010, rd = x3, opcode 0b0101111.
def claim3State : Emulator :=
  { baseState with
    instruction := (4 <<< 25) ||| (2 <<< 20) ||| (1 <<< 15) ||| (2 <<< 12) ||| (3 <<< 7) ||| 0x2f
    mem := fun i => if i = 1048572 then 7 else 0
    regs := fun j => if j = 0 then 1048572 else if j = 1 then 5 else 0 }

/-- Claim C3 states that an AMO* instruction at an aligned address changes
only rd, the addressed memory word and the PC, and in particular that rs2
keeps its previous value. Executing AMOSWAP.W x3, x2, (x1) with
x1 = 1048572 (aligned; chosen at MEMORY_SIZE - 4 so that the
Memory::write length bug of claim C1 is not triggered), x2 = 5 and old
memory word 7: the memory word duly becomes 5 and rd = x3 receives 7, but
x2 is overwritten with the old memory value 7 (the source writes
Register::X(rs2) in the AMOSWAP arm), refuting the frame condition. At any
other aligned address the same instruction panics inside Memory::write. -/
theorem claim3_amoswap_clobbers_rs2 :
    claim3State.regs 1 = 5 ∧
    (Emulator.exec claim3State).okState.map
        (fun s => (s.regs 1, s.regs 2, s.mem 1048572)) = some (7, 7, 5) ∧
    (Emulator.exec claim3State).okFlag = some .Common := by decide

-- ---------------------------------------------------------------------------
-- Claim C4

-- LR.W x3, (x1): funct7 = 0b0001000, rs2 = 0, rs1 = x1, funct3 = 0b010,
-- rd = x3, opcode 0b0101111; x1 = 2, a misaligned address.
def claim4State : Emulator :=
  { baseState with
    instruction := (8 <<< 25) ||| (0 <<< 20) ||| (1 <<< 15) ||| (2 <<< 12) ||| (3 <<< 7) ||| 0x2f
    regs := fun j => if j = 0 then 2 else 0 }

/-- Claim C4 states that every A-extension instruction at a misaligned
address raises InstructionAddressMisaligned before any update, in every
configuration including C enabled in misa. With the default misa (C bit
set) the .W atomics go through check_misaligned, which skips the check
entirely when C is enabled: LR.W x3, (x1) with x1 = 2 completes normally,
raising no exception, writing rd and pushing the reservation (2, 6). -/
theorem claim4_lrw_misaligned_no_trap :
    claim4State.is_c_extension_enabled = true ∧
    claim4State.regs 0 % 4 ≠ 0 ∧
    (Emulator.exec claim4State).okState.map
        (fun s => (s.reserved_memory_ranges, s.regs 2)) = some ([(2, 6)], 0) ∧
    (Emulator.exec claim4State).trapKind = none := by decide

-- ---------------------------------------------------------------------------
-- Claim C5

def claim5State : Emulator := { baseState with current_priv := .S }

/-- Claim C5 (counterexample) states that after any successful load the
current privilege is M regardless of the prior state. Loading a one-byte
file from a state whose privilege is S leaves the privilege at S: load
resets registers, pc, CSRs and the finished flag but never touches
current_priv. -/
theorem claim5_load_keeps_privilege_cex :
    (Emulator.load claim5State [7]).map (fun s => s.current_priv) = some .S ∧
    Priv.S ≠ Priv.M := by decide

/-- Claim C5 (amended): after a successful load(file) the memory equals the
file contents zero padded, all 31 general registers read 0, pc = 0 and
every CSR holds its reset default (mstatus = XXL only, misa =
(1 << 63) ||| 0x141105, all others 0); the current privilege is not reset
and keeps its pre-call value (M only for a freshly constructed emulator). -/
theorem claim5_load_initial_state (st : Emulator) (file : List Nat)
    (h : file.length ≤ MEMORY_SIZE) :
    ∃ st', Emulator.load st file = some st' ∧
      (∀ i, st'.mem i = if i < file.length then file.getD i 0 else 0) ∧
      (∀ i, st'.regs i = 0) ∧
      st'.pc = 0 ∧
      st'.csr = Csr.default ∧
      st'.csr.mstatus = 0xa00000000 ∧
      st'.csr.misa = 0x8000000000141105 ∧
      st'.csr.mie = 0 ∧ st'.csr.mtvec = 0 ∧ st'.csr.mepc = 0 ∧ st'.csr.mcause = 0 ∧
      st'.riscv_tests_finished = false ∧
      st'.current_priv = st.current_priv := by
  have hm : Memory.load MEMORY_SIZE file =
      some (fun i => if i < file.length then file.getD i 0 else 0) := by
    simp [Memory.load, Nat.not_lt.2 h]
  refine ⟨{ st with
      regs := fun _ => 0
      pc := 0
      csr := Csr.default
      riscv_tests_finished := false
      mem := fun i => if i < file.length then file.getD i 0 else 0 }, ?_, ?_⟩
  · simp only [Emulator.load, hm]
  · exact ⟨fun i => rfl, fun i => rfl, rfl, rfl, rfl, rfl, rfl, rfl, rfl, rfl, rfl, rfl⟩

/-- Witness for claim C5 at the concrete input load(baseState, [7]). -/
theorem claim5_load_initial_state_witness :
    [(7 : Nat)].length ≤ MEMORY_SIZE ∧
    ∃ st', Emulator.load baseState [7] = some st' ∧
      (∀ i, st'.mem i = if i < [(7 : Nat)].length then [(7 : Nat)].getD i 0 else 0) ∧
      (∀ i, st'.regs i = 0) ∧
      st'.pc = 0 ∧
      st'.csr = Csr.default ∧
      st'.csr.mstatus = 0xa00000000 ∧
      st'.csr.misa = 0x8000000000141105 ∧
      st'.csr.mie = 0 ∧ st'.csr.mtvec = 0 ∧ st'.csr.mepc = 0 ∧ st'.csr.mcause = 0 ∧
      st'.riscv_tests_finished = false ∧
      st'.current_priv = baseState.current_priv :=
  ⟨by decide, claim5_load_initial_state baseState [7] (by decide)⟩

-- ---------------------------------------------------------------------------
-- Claim C6

def claim6State : Emulator := baseState

/-- Claim C6 (counterexample) states that write(c, v) succeeds for every
implemented writable CSR c and every 64-bit v. Writing 1 <<< 63 (the SD
bit) to mstatus is rejected with IllegalInstruction by the validity filter
of the mstatus arm, so the unconditional claim is false. -/
theorem claim6_mstatus_write_rejected_cex :
    (claim6State.write_csr 0x300 (1 <<< 63)).errKind = some .IllegralInstruction ∧
    (1 <<< 63 : Nat) < 2 ^ 64 := by decide

-- Declared WARL behavior of the claim, written from the specification
-- wording: for each register the accepted values and the value read back
-- after a write. none means the write is rejected.
def csrMaskSpec (c v : Nat) : Option Nat :=
  if c = 0x100 then
    if v &&& 0x800000010001e640 = 0 then some (v &&& 0x122) else none
  else if c = 0x300 then
    if v &&& 0x80000005002fe640 = 0 then some ((v &&& 0x4019aa) ||| 0xa00000000) else none
  else if c = 0x141 ∨ c = 0x341 then some (v &&& 0xfffffffffffffffc)
  else if c = 0x305 then some (v &&& 0xfffffffffffffffd)
  else if c = 0x302 then some (v &&& 0xcbbff)
  else if c = 0x303 then some (v &&& 0x2aaa)
  else if c = 0x304 ∨ c = 0x344 then some (v &&& 0xaaa)
  else if c = 0x306 ∨ c = 0x340 ∨ c = 0x343 then some v
  else if c = 0x342 then
    if v >>> 63 = 1 then
      if v &&& 0x7fffffffffffffff = 1 ∨ v &&& 0x7fffffffffffffff = 3 ∨
          v &&& 0x7fffffffffffffff = 5 ∨ v &&& 0x7fffffffffffffff = 7 ∨
          v &&& 0x7fffffffffffffff = 9 ∨ v &&& 0x7fffffffffffffff = 11 ∨
          v &&& 0x7fffffffffffffff = 13 then some (v &&& 0x7fffffffffffffff) else some 0
    else
      if v ≤ 9 ∨ v = 11 ∨ v = 12 ∨ v = 13 ∨ v = 15 ∨ v = 18 ∨ v = 19 then some v else some 0
  else none

lemma csrCase100 (st : Emulator) (v m : Nat)
    (hp : st.current_priv = .M) (hm : csrMaskSpec 0x100 v = some m) :
    ∃ st', st.write_csr 0x100 v = .ok st' ∧ st'.read_csr 0x100 = .ok m := by
  by_cases hv : v &&& 0x800000010001e640 = 0
  · simp [csrMaskSpec, hv] at hm
    subst hm
    refine ⟨{ st with csr :=
      { st.csr with mstatus := (st.csr.mstatus &&& compl64 0x122) ||| (v &&& 0x122) } }, ?_, ?_⟩
    · simp [Emulator.write_csr, Emulator.check_csr_priv, hp, Priv.toNat, hv]
    · simp [Emulator.read_csr, Emulator.read_raw_csr, Emulator.check_csr_priv, hp,
        Priv.toNat, Res.bind]
      exact masked_merge_readback st.csr.mstatus v 0x122 (by decide)
  · simp [csrMaskSpec, hv] at hm

lemma csrCase300 (st : Emulator) (v m : Nat)
    (hp : st.current_priv = .M) (hm : csrMaskSpec 0x300 v = some m) :
    ∃ st', st.write_csr 0x300 v = .ok st' ∧ st'.read_csr 0x300 = .ok m := by
  by_cases hv : v &&& 0x80000005002fe640 = 0
  · simp [csrMaskSpec, hv] at hm
    subst hm
    refine ⟨{ st with csr :=
      { st.csr with mstatus := (v &&& 0x4019aa) ||| 0xa00000000 } }, ?_, ?_⟩
    · simp [Emulator.write_csr, Emulator.check_csr_priv, hp, Priv.toNat, hv]
    · simp [Emulator.read_csr, Emulator.read_raw_csr, Emulator.check_csr_priv, hp,
        Priv.toNat, Res.bind]
  · simp [csrMaskSpec, hv] at hm

lemma csrCase141 (st : Emulator) (v m : Nat)
    (hp : st.current_priv = .M) (hm : csrMaskSpec 0x141 v = some m) :
    ∃ st', st.write_csr 0x141 v = .ok st' ∧ st'.read_csr 0x141 = .ok m := by
  simp [csrMaskSpec] at hm
  subst hm
  refine ⟨{ st with csr := { st.csr with sepc := v &&& 0xfffffffffffffffc } }, ?_, ?_⟩
  · simp [Emulator.write_csr, Emulator.check_csr_priv, hp, Priv.toNat]
  · simp [Emulator.read_csr, Emulator.read_raw_csr, Emulator.check_csr_priv, hp, Priv.toNat,
      Res.bind]

lemma csrCase341 (st : Emulator) (v m : Nat)
    (hp : st.current_priv = .M) (hm : csrMaskSpec 0x341 v = some m) :
    ∃ st', st.write_csr 0x341 v = .ok st' ∧ st'.read_csr 0x341 = .ok m := by
  simp [csrMaskSpec] at hm
  subst hm
  refine ⟨{ st with csr := { st.csr with mepc := v &&& 0xfffffffffffffffc } }, ?_, ?_⟩
  · simp [Emulator.write_csr, Emulator.check_csr_priv, hp, Priv.toNat]
  · simp [Emulator.read_csr, Emulator.read_raw_csr, Emulator.check_csr_priv, hp, Priv.toNat,
      Res.bind]

lemma csrCase305 (st : Emulator) (v m : Nat)
    (hp : st.current_priv = .M) (hm : csrMaskSpec 0x305 v = some m) :
    ∃ st', st.write_csr 0x305 v = .ok st' ∧ st'.read_csr 0x305 = .ok m := by
  simp [csrMaskSpec] at hm
  subst hm
  refine ⟨{ st with csr := { st.csr with mtvec := v &&& 0xfffffffffffffffd } }, ?_, ?_⟩
  · simp [Emulator.write_csr, Emulator.check_csr_priv, hp, Priv.toNat]
  · simp [Emulator.read_csr, Emulator.read_raw_csr, Emulator.check_csr_priv, hp, Priv.toNat,
      Res.bind]

lemma csrCase302 (st : Emulator) (v m : Nat)
    (hp : st.current_priv = .M) (hm : csrMaskSpec 0x302 v = some m) :
    ∃ st', st.write_csr 0x302 v = .ok st' ∧ st'.read_csr 0x302 = .ok m := by
  simp [csrMaskSpec] at hm
  subst hm
  refine ⟨{ st with csr := { st.csr with medeleg := v &&& 0xcbbff } }, ?_, ?_⟩
  · simp [Emulator.write_csr, Emulator.check_csr_priv, hp, Priv.toNat]
  · simp [Emulator.read_csr, Emulator.read_raw_csr, Emulator.check_csr_priv, hp, Priv.toNat,
      Res.bind]

lemma csrCase303 (st : Emulator) (v m : Nat)
    (hp : st.current_priv = .M) (hm : csrMaskSpec 0x303 v = some m) :
    ∃ st', st.write_csr 0x303 v = .ok st' ∧ st'.read_csr 0x303 = .ok m := by
  simp [csrMaskSpec] at hm
  subst hm
  refine ⟨{ st with csr := { st.csr with mideleg := v &&& 0x2aaa } }, ?_, ?_⟩
  · simp [Emulator.write_csr, Emulator.check_csr_priv, hp, Priv.toNat]
  · simp [Emulator.read_csr, Emulator.read_raw_csr, Emulator.check_csr_priv, hp, Priv.toNat,
      Res.bind]

lemma csrCase304 (st : Emulator) (v m : Nat)
    (hp : st.current_priv = .M) (hm : csrMaskSpec 0x304 v = some m) :
    ∃ st', st.write_csr 0x304 v = .ok st' ∧ st'.read_csr 0x304 = .ok m := by
  simp [csrMaskSpec] at hm
  subst hm
  refine ⟨{ st with csr := { st.csr with mie := v &&& 0xaaa } }, ?_, ?_⟩
  · simp [Emulator.write_csr, Emulator.check_csr_priv, hp, Priv.toNat]
  · simp [Emulator.read_csr, Emulator.read_raw_csr, Emulator.check_csr_priv, hp, Priv.toNat,
      Res.bind]

lemma csrCase344 (st : Emulator) (v m : Nat)
    (hp : st.current_priv = .M) (hm : csrMaskSpec 0x344 v = some m) :
    ∃ st', st.write_csr 0x344 v = .ok st' ∧ st'.read_csr 0x344 = .ok m := by
  simp [csrMaskSpec] at hm
  subst hm
  refine ⟨{ st with csr := { st.csr with mip := v &&& 0xaaa } }, ?_, ?_⟩
  · simp [Emulator.write_csr, Emulator.check_csr_priv, hp, Priv.toNat]
  · simp [Emulator.read_csr, Emulator.read_raw_csr, Emulator.check_csr_priv, hp, Priv.toNat,
      Res.bind]

lemma csrCase306 (st : Emulator) (v m : Nat)
    (hp : st.current_priv = .M) (hm : csrMaskSpec 0x306 v = some m) :
    ∃ st', st.write_csr 0x306 v = .ok st' ∧ st'.read_csr 0x306 = .ok m := by
  simp [csrMaskSpec] at hm
  subst hm
  refine ⟨{ st with csr := { st.csr with mcounteren := v } }, ?_, ?_⟩
  · simp [Emulator.write_csr, Emulator.check_csr_priv, hp, Priv.toNat]
  · simp [Emulator.read_csr, Emulator.read_raw_csr, Emulator.check_csr_priv, hp, Priv.toNat,
      Res.bind]

lemma csrCase340 (st : Emulator) (v m : Nat)
    (hp : st.current_priv = .M) (hm : csrMaskSpec 0x340 v = some m) :
    ∃ st', st.write_csr 0x340 v = .ok st' ∧ st'.read_csr 0x340 = .ok m := by
  simp [csrMaskSpec] at hm
  subst hm
  refine ⟨{ st with csr := { st.csr with mscratch := v } }, ?_, ?_⟩
  · simp [Emulator.write_csr, Emulator.check_csr_priv, hp, Priv.toNat]
  · simp [Emulator.read_csr, Emulator.read_raw_csr, Emulator.check_csr_priv, hp, Priv.toNat,
      Res.bind]

lemma csrCase343 (st : Emulator) (v m : Nat)
    (hp : st.current_priv = .M) (hm : csrMaskSpec 0x343 v = some m) :
    ∃ st', st.write_csr 0x343 v = .ok st' ∧ st'.read_csr 0x343 = .ok m := by
  simp [csrMaskSpec] at hm
  subst hm
  refine ⟨{ st with csr := { st.csr with mtval := v } }, ?_, ?_⟩
  · simp [Emulator.write_csr, Emulator.check_csr_priv, hp, Priv.toNat]
  · simp [Emulator.read_csr, Emulator.read_raw_csr, Emulator.check_csr_priv, hp, Priv.toNat,
      Res.bind]

lemma csrCase342 (st : Emulator) (v m : Nat)
    (hp : st.current_priv = .M) (hm : csrMaskSpec 0x342 v = some m) :
    ∃ st', st.write_csr 0x342 v = .ok st' ∧ st'.read_csr 0x342 = .ok m := by
  have hc63 : compl64 (1 <<< 63) = 0x7fffffffffffffff := by decide
  refine ⟨{ st with csr := { st.csr with mcause := v &&& mcauseFilter v } }, ?_, ?_⟩
  · simp [Emulator.write_csr, Emulator.check_csr_priv, hp, Priv.toNat]
  · by_cases hi : v >>> 63 = 1
    · by_cases hd : v &&& 0x7fffffffffffffff = 1 ∨ v &&& 0x7fffffffffffffff = 3 ∨
          v &&& 0x7fffffffffffffff = 5 ∨ v &&& 0x7fffffffffffffff = 7 ∨
          v &&& 0x7fffffffffffffff = 9 ∨ v &&& 0x7fffffffffffffff = 11 ∨
          v &&& 0x7fffffffffffffff = 13
      · simp [csrMaskSpec, hi, hd] at hm
        subst hm
        have hf : mcauseFilter v = v &&& 0x7fffffffffffffff := by
          rw [mcauseFilter, if_pos hi, hc63, if_pos hd]
        have hs : v &&& (v &&& 0x7fffffffffffffff) = v &&& 0x7fffffffffffffff := by
          rw [← Nat.and_assoc, Nat.and_self]
        simp [Emulator.read_csr, Emulator.read_raw_csr, Emulator.check_csr_priv, hp,
          Priv.toNat, Res.bind, hf, hs]
      · simp [csrMaskSpec, hi, hd] at hm
        subst hm
        have hf : mcauseFilter v = 0 := by
          rw [mcauseFilter, if_pos hi, hc63, if_neg hd]
        simp [Emulator.read_csr, Emulator.read_raw_csr, Emulator.check_csr_priv, hp,
          Priv.toNat, Res.bind, hf]
    · by_cases hq : v ≤ 9 ∨ v = 11 ∨ v = 12 ∨ v = 13 ∨ v = 15 ∨ v = 18 ∨ v = 19
      · simp [csrMaskSpec, hi, hq] at hm
        subst hm
        have hf : mcauseFilter v = v := by
          rw [mcauseFilter, if_neg hi, if_pos hq]
        simp [Emulator.read_csr, Emulator.read_raw_csr, Emulator.check_csr_priv, hp,
          Priv.toNat, Res.bind, hf, Nat.and_self]
      · simp [csrMaskSpec, hi, hq] at hm
        subst hm
        have hf : mcauseFilter v = 0 := by
          rw [mcauseFilter, if_neg hi, if_neg hq]
        simp [Emulator.read_csr, Emulator.read_raw_csr, Emulator.check_csr_priv, hp,
          Priv.toNat, Res.bind, hf]

/-- Claim C6 (amended): for every CSR in the table csrMaskSpec (sstatus,
mstatus, sepc, mepc, mtvec, medeleg, mideleg, mie, mip, mcounteren,
mscratch, mtval, mcause) and every value v the register's validity filter
accepts (mstatus and sstatus reject writes touching unsupported bits;
every listed value is accepted elsewhere), a write in M-mode succeeds and
a subsequent read returns the declared masked value. The original claim
fails for mstatus/sstatus values with unsupported bits (see the
counterexample) and for stvec, scounteren, satp, misa, pmpcfg0, pmpaddr0
and mnstatus, whose writes succeed but which either have no read_raw_csr
arm or do not store the written value. -/
theorem claim6_csr_write_read_masked (st : Emulator) (c v m : Nat)
    (hp : st.current_priv = .M) (hv : v < 2 ^ 64) (hm : csrMaskSpec c v = some m) :
    ∃ st', st.write_csr c v = .ok st' ∧ st'.read_csr c = .ok m := by
  by_cases h1 : c = 0x100
  · subst h1; exact csrCase100 st v m hp hm
  · by_cases h2 : c = 0x300
    · subst h2; exact csrCase300 st v m hp hm
    · by_cases h3 : c = 0x141
      · subst h3; exact csrCase141 st v m hp hm
      · by_cases h4 : c = 0x341
        · subst h4; exact csrCase341 st v m hp hm
        · by_cases h5 : c = 0x305
          · subst h5; exact csrCase305 st v m hp hm
          · by_cases h6 : c = 0x302
            · subst h6; exact csrCase302 st v m hp hm
            · by_cases h7 : c = 0x303
              · subst h7; exact csrCase303 st v m hp hm
              · by_cases h8 : c = 0x304
                · subst h8; exact csrCase304 st v m hp hm
                · by_cases h9 : c = 0x344
                  · subst h9; exact csrCase344 st v m hp hm
                  · by_cases h10 : c = 0x306
                    · subst h10; exact csrCase306 st v m hp hm
                    · by_cases h11 : c = 0x340
                      · subst h11; exact csrCase340 st v m hp hm
                      · by_cases h12 : c = 0x343
                        · subst h12; exact csrCase343 st v m hp hm
                        · by_cases h13 : c = 0x342
                          · subst h13; exact csrCase342 st v m hp hm
                          · simp [csrMaskSpec, h1, h2, h3, h4, h5, h6, h7, h8, h9, h10,
                              h11, h12, h13] at hm

/-- Witness for claim C6: writing 0xffffffffffffffff to mie in M-mode
succeeds and reads back as 0xaaa. -/
theorem claim6_csr_write_read_masked_witness :
    baseState.current_priv = .M ∧ (0xffffffffffffffff : Nat) < 2 ^ 64 ∧
    csrMaskSpec 0x304 0xffffffffffffffff = some 0xaaa ∧
    ∃ st', baseState.write_csr 0x304 0xffffffffffffffff = .ok st' ∧
      st'.read_csr 0x304 = .ok 0xaaa :=
  ⟨rfl, by decide, by decide,
    claim6_csr_write_read_masked baseState 0x304 0xffffffffffffffff 0xaaa rfl (by decide)
      (by decide)⟩

-- ---------------------------------------------------------------------------
-- Claim C7

-- the value stored into mstatus by the MRET arm
def mretStored (a : Nat) : Nat :=
  ((a &&& compl64 0x8 &&& compl64 0x1800 &&& compl64 0x80 |||
      ((a &&& 0x80) >>> 7) <<< 3 ||| 1 <<< 7 ||| 0 <<< 11) &&& 0x4019aa) ||| 0xa00000000

lemma mpieCases (a : Nat) : (a &&& 0x80) >>> 7 = 0 ∨ (a &&& 0x80) >>> 7 = 1 := by
  have h : (a &&& 0x80) >>> 7 = (a >>> 7) &&& 1 := by
    rw [and_shiftRight, (by decide : (0x80 : Nat) >>> 7 = 1)]
  have h2 := @Nat.and_le_right (a >>> 7) 1
  omega

lemma mretStoredClean (a : Nat) :
    mretStored a =
      (a &&& 0x400122) ||| ((((a &&& 0x80) >>> 7) <<< 3 ||| 0x80) &&& 0x4019aa ||| 0xa00000000) := by
  rw [mretStored, Nat.and_assoc, Nat.and_assoc,
    (by decide : compl64 0x8 &&& (compl64 0x1800 &&& compl64 0x80) = 0xffffffffffffe777),
    (by decide : (1 : Nat) <<< 7 = 0x80), (by decide : (0 : Nat) <<< 11 = 0),
    Nat.or_zero, Nat.or_assoc, or_and_distrib, Nat.and_assoc,
    (by decide : (0xffffffffffffe777 : Nat) &&& 0x4019aa = 0x400122), Nat.or_assoc]

lemma mretStored_bit3 (a : Nat) : (mretStored a >>> 3) &&& 1 = (a &&& 0x80) >>> 7 := by
  rw [mretStoredClean]
  rcases mpieCases a with h | h <;> rw [h]
  · rw [(by decide : (((0 : Nat) <<< 3 ||| 0x80) &&& 0x4019aa ||| 0xa00000000) = 0xa00000080),
      bitfield_of_masked a 0x400122 0xa00000080 3 1 (by decide)]
    decide
  · rw [(by decide : (((1 : Nat) <<< 3 ||| 0x80) &&& 0x4019aa ||| 0xa00000000) = 0xa00000088),
      bitfield_of_masked a 0x400122 0xa00000088 3 1 (by decide)]
    decide

lemma mretStored_bit7 (a : Nat) : (mretStored a >>> 7) &&& 1 = 1 := by
  rw [mretStoredClean]
  rcases mpieCases a with h | h <;> rw [h]
  · rw [(by decide : (((0 : Nat) <<< 3 ||| 0x80) &&& 0x4019aa ||| 0xa00000000) = 0xa00000080),
      bitfield_of_masked a 0x400122 0xa00000080 7 1 (by decide)]
    decide
  · rw [(by decide : (((1 : Nat) <<< 3 ||| 0x80) &&& 0x4019aa ||| 0xa00000000) = 0xa00000088),
      bitfield_of_masked a 0x400122 0xa00000088 7 1 (by decide)]
    decide

lemma mretStored_mpp (a : Nat) : (mretStored a >>> 11) &&& 3 = 0 := by
  rw [mretStoredClean]
  rcases mpieCases a with h | h <;> rw [h]
  · rw [(by decide : (((0 : Nat) <<< 3 ||| 0x80) &&& 0x4019aa ||| 0xa00000000) = 0xa00000080),
      bitfield_of_masked a 0x400122 0xa00000080 11 3 (by decide)]
    decide
  · rw [(by decide : (((1 : Nat) <<< 3 ||| 0x80) &&& 0x4019aa ||| 0xa00000000) = 0xa00000088),
      bitfield_of_masked a 0x400122 0xa00000088 11 3 (by decide)]
    decide

lemma mretNew_rejected_zero (a : Nat) (h : a &&& 0x80000005002fe640 = 0) :
    (a &&& compl64 0x8 &&& compl64 0x1800 &&& compl64 0x80 |||
      ((a &&& 0x80) >>> 7) <<< 3 ||| 128) &&& 0x80000005002fe640 = 0 := by
  rw [Nat.and_assoc, Nat.and_assoc,
    (by decide : compl64 0x8 &&& (compl64 0x1800 &&& compl64 0x80) = 0xffffffffffffe777)]
  rw [or_and_distrib, or_and_distrib]
  rw [and_of_and_eq_zero a 0xffffffffffffe777 0x80000005002fe640 (by decide) h]
  rcases mpieCases a with hc | hc <;> rw [hc] <;> decide

/-- Claim C7: whenever MRET is executed in M-mode (on any machine state
whose mstatus would be accepted by the mstatus write filter, which holds
for every reachable mstatus value, and whose MPP field is not the reserved
value 2, on which the source would panic in Priv::from), afterwards
mstatus.MIE equals the previous mstatus.MPIE, mstatus.MPIE = 1,
mstatus.MPP = 0 (U), the current privilege equals the previously saved MPP
value, and the PC equals mepc. -/
theorem claim7_mret (st : Emulator)
    (hi : st.instruction = 0x30200073)
    (hp : st.current_priv = .M)
    (hrej : st.csr.mstatus &&& 0x80000005002fe640 = 0)
    (hmpp : (st.csr.mstatus &&& 0x1800) >>> 11 ≠ 2) :
    ∃ st', st.exec = .ok st' .Jump ∧
      (st'.csr.mstatus >>> 3) &&& 1 = (st.csr.mstatus &&& 0x80) >>> 7 ∧
      (st'.csr.mstatus >>> 7) &&& 1 = 1 ∧
      (st'.csr.mstatus >>> 11) &&& 3 = 0 ∧
      Priv.fromNat ((st.csr.mstatus &&& 0x1800) >>> 11) = some st'.current_priv ∧
      st'.pc = st.csr.mepc := by
  have hmppCases : (st.csr.mstatus &&& 0x1800) >>> 11 = 0 ∨
      (st.csr.mstatus &&& 0x1800) >>> 11 = 1 ∨ (st.csr.mstatus &&& 0x1800) >>> 11 = 3 := by
    have h : (st.csr.mstatus &&& 0x1800) >>> 11 = (st.csr.mstatus >>> 11) &&& 3 := by
      rw [and_shiftRight, (by decide : (0x1800 : Nat) >>> 11 = 3)]
    have h2 := @Nat.and_le_right (st.csr.mstatus >>> 11) 3
    omega
  obtain ⟨P, hP⟩ : ∃ P, Priv.fromNat ((st.csr.mstatus &&& 0x1800) >>> 11) = some P := by
    rcases hmppCases with h | h | h <;> rw [h] <;> exact ⟨_, rfl⟩
  refine ⟨{ st with
      c_instruction := 0
      csr := { st.csr with mstatus := mretStored st.csr.mstatus }
      pc := st.csr.mepc
      current_priv := P }, ?_, ?_, ?_, ?_, ?_, ?_⟩
  · simp [Emulator.exec, hi, Emulator.execSystem, Emulator.execMret, hp,
      Emulator.write_csr, Emulator.check_csr_priv, Priv.toNat, Emulator.read_csr,
      Emulator.read_raw_csr, Res.bind, Emulator.write_reg, hP,
      mretNew_rejected_zero st.csr.mstatus hrej, mretStored,
      (by decide : (807403635 &&& 3 : Nat) = 3),
      (by decide : (201850908 &&& 31 : Nat) = 28),
      (by decide : (197120 &&& 7 : Nat) = 0),
      (by decide : (3 &&& 3 : Nat) = 3)]
  · exact mretStored_bit3 st.csr.mstatus
  · exact mretStored_bit7 st.csr.mstatus
  · exact mretStored_mpp st.csr.mstatus
  · exact hP
  · rfl

def claim7State : Emulator :=
  { baseState with
    instruction := 0x30200073
    csr := { Csr.default with mstatus := 0xa00001880, mepc := 0x200 } }

/-- Witness for claim C7 at a concrete M-mode state with MPIE = 1 and
MPP = 3 (M). -/
theorem claim7_mret_witness :
    claim7State.instruction = 0x30200073 ∧ claim7State.current_priv = .M ∧
    claim7State.csr.mstatus &&& 0x80000005002fe640 = 0 ∧
    (claim7State.csr.mstatus &&& 0x1800) >>> 11 ≠ 2 ∧
    ∃ st', claim7State.exec = .ok st' .Jump ∧
      (st'.csr.mstatus >>> 3) &&& 1 = (claim7State.csr.mstatus &&& 0x80) >>> 7 ∧
      (st'.csr.mstatus >>> 7) &&& 1 = 1 ∧
      (st'.csr.mstatus >>> 11) &&& 3 = 0 ∧
      Priv.fromNat ((claim7State.csr.mstatus &&& 0x1800) >>> 11) = some st'.current_priv ∧
      st'.pc = claim7State.csr.mepc :=
  ⟨rfl, rfl, by decide, by decide,
    claim7_mret claim7State rfl rfl (by decide) (by decide)⟩

-- ---------------------------------------------------------------------------
-- Claim C8

lemma read_reg_ok (st : Emulator) (i : Nat) (h : i ≤ 31) :
    ∃ v, st.read_reg (.X i) = .ok v := by
  by_cases h0 : i = 0
  · exact ⟨0, by simp [Emulator.read_reg, h0]⟩
  · exact ⟨st.regs (i - 1), by simp [Emulator.read_reg, h0, show ¬ (i > 31) from by omega]⟩

lemma write_reg_ok (st : Emulator) (i v : Nat) (h : i ≤ 31) :
    ∃ st', st.write_reg (.X i) v = .ok st' ∧ st'.csr = st.csr ∧ st'.mem = st.mem ∧
      st'.reserved_memory_ranges = st.reserved_memory_ranges ∧ st'.pc = st.pc := by
  by_cases h0 : i = 0
  · exact ⟨st, by simp [Emulator.write_reg, h0], rfl, rfl, rfl, rfl⟩
  · exact ⟨{ st with regs := fun j => if j = i - 1 then v else st.regs j },
      by simp [Emulator.write_reg, h0, show ¬ (i > 31) from by omega], rfl, rfl, rfl, rfl⟩

-- write_csr to a read-only address (bits 11:10 = 11) always errs.
lemma write_csr_readonly (st : Emulator) (c w : Nat) (h12 : c >>> 12 = 0)
    (hro : (c >>> 10) &&& 3 = 3) :
    st.write_csr c w = .err .IllegralInstruction := by
  rw [Emulator.write_csr, if_neg (by omega), if_pos hro]

lemma read_raw_cases (st : Emulator) (c : Nat) :
    st.read_raw_csr c = .err .IllegralInstruction ∨ ∃ x, st.read_raw_csr c = .ok x := by
  by_cases h1 : c = 0x100
  · exact Or.inr ⟨_, by rw [Emulator.read_raw_csr, if_pos h1]⟩
  by_cases h2 : c = 0x141
  · exact Or.inr ⟨_, by rw [Emulator.read_raw_csr, if_neg h1, if_pos h2]⟩
  by_cases h3 : c = 0x180
  · exact Or.inr ⟨_, by rw [Emulator.read_raw_csr, if_neg h1, if_neg h2, if_pos h3]⟩
  by_cases h4 : c = 0x300
  · exact Or.inr ⟨_, by rw [Emulator.read_raw_csr, if_neg h1, if_neg h2, if_neg h3, if_pos h4]⟩
  by_cases h5 : c = 0x301
  · exact Or.inr ⟨_, by rw [Emulator.read_raw_csr, if_neg h1, if_neg h2, if_neg h3, if_neg h4, if_pos h5]⟩
  by_cases h6 : c = 0x302
  · exact Or.inr ⟨_, by rw [Emulator.read_raw_csr, if_neg h1, if_neg h2, if_neg h3, if_neg h4, if_neg h5, if_pos h6]⟩
  by_cases h7 : c = 0x303
  · exact Or.inr ⟨_, by rw [Emulator.read_raw_csr, if_neg h1, if_neg h2, if_neg h3, if_neg h4, if_neg h5, if_neg h6, if_pos h7]⟩
  by_cases h8 : c = 0x304
  · exact Or.inr ⟨_, by rw [Emulator.read_raw_csr, if_neg h1, if_neg h2, if_neg h3, if_neg h4, if_neg h5, if_neg h6, if_neg h7, if_pos h8]⟩
  by_cases h9 : c = 0x305
  · exact Or.inr ⟨_, by rw [Emulator.read_raw_csr, if_neg h1, if_neg h2, if_neg h3, if_neg h4, if_neg h5, if_neg h6, if_neg h7, if_neg h8, if_pos h9]⟩
  by_cases h10 : c = 0x306
  · exact Or.inr ⟨_, by rw [Emulator.read_raw_csr, if_neg h1, if_neg h2, if_neg h3, if_neg h4, if_neg h5, if_neg h6, if_neg h7, if_neg h8, if_neg h9, if_pos h10]⟩
  by_cases h11 : c = 0x340
  · exact Or.inr ⟨_, by rw [Emulator.read_raw_csr, if_neg h1, if_neg h2, if_neg h3, if_neg h4, if_neg h5, if_neg h6, if_neg h7, if_neg h8, if_neg h9, if_neg h10, if_pos h11]⟩
  by_cases h12 : c = 0x341
  · exact Or.inr ⟨_, by rw [Emulator.read_raw_csr, if_neg h1, if_neg h2, if_neg h3, if_neg h4, if_neg h5, if_neg h6, if_neg h7, if_neg h8, if_neg h9, if_neg h10, if_neg h11, if_pos h12]⟩
  by_cases h13 : c = 0x342
  · exact Or.inr ⟨_, by rw [Emulator.read_raw_csr, if_neg h1, if_neg h2, if_neg h3, if_neg h4, if_neg h5, if_neg h6, if_neg h7, if_neg h8, if_neg h9, if_neg h10, if_neg h11, if_neg h12, if_pos h13]⟩
  by_cases h14 : c = 0x343
  · exact Or.inr ⟨_, by rw [Emulator.read_raw_csr, if_neg h1, if_neg h2, if_neg h3, if_neg h4, if_neg h5, if_neg h6, if_neg h7, if_neg h8, if_neg h9, if_neg h10, if_neg h11, if_neg h12, if_neg h13, if_pos h14]⟩
  by_cases h15 : c = 0x344
  · exact Or.inr ⟨_, by rw [Emulator.read_raw_csr, if_neg h1, if_neg h2, if_neg h3, if_neg h4, if_neg h5, if_neg h6, if_neg h7, if_neg h8, if_neg h9, if_neg h10, if_neg h11, if_neg h12, if_neg h13, if_neg h14, if_pos h15]⟩
  by_cases h16 : c = 0x800 ∨ c = 0xc00
  · exact Or.inr ⟨_, by rw [Emulator.read_raw_csr, if_neg h1, if_neg h2, if_neg h3, if_neg h4, if_neg h5, if_neg h6, if_neg h7, if_neg h8, if_neg h9, if_neg h10, if_neg h11, if_neg h12, if_neg h13, if_neg h14, if_neg h15, if_pos h16]⟩
  by_cases h17 : c = 0xf11
  · exact Or.inr ⟨_, by rw [Emulator.read_raw_csr, if_neg h1, if_neg h2, if_neg h3, if_neg h4, if_neg h5, if_neg h6, if_neg h7, if_neg h8, if_neg h9, if_neg h10, if_neg h11, if_neg h12, if_neg h13, if_neg h14, if_neg h15, if_neg h16, if_pos h17]⟩
  by_cases h18 : c = 0xf12
  · exact Or.inr ⟨_, by rw [Emulator.read_raw_csr, if_neg h1, if_neg h2, if_neg h3, if_neg h4, if_neg h5, if_neg h6, if_neg h7, if_neg h8, if_neg h9, if_neg h10, if_neg h11, if_neg h12, if_neg h13, if_neg h14, if_neg h15, if_neg h16, if_neg h17, if_pos h18]⟩
  by_cases h19 : c = 0xf13
  · exact Or.inr ⟨_, by rw [Emulator.read_raw_csr, if_neg h1, if_neg h2, if_neg h3, if_neg h4, if_neg h5, if_neg h6, if_neg h7, if_neg h8, if_neg h9, if_neg h10, if_neg h11, if_neg h12, if_neg h13, if_neg h14, if_neg h15, if_neg h16, if_neg h17, if_neg h18, if_pos h19]⟩
  by_cases h20 : c = 0xf14
  · exact Or.inr ⟨_, by rw [Emulator.read_raw_csr, if_neg h1, if_neg h2, if_neg h3, if_neg h4, if_neg h5, if_neg h6, if_neg h7, if_neg h8, if_neg h9, if_neg h10, if_neg h11, if_neg h12, if_neg h13, if_neg h14, if_neg h15, if_neg h16, if_neg h17, if_neg h18, if_neg h19, if_pos h20]⟩
  · exact Or.inl (by rw [Emulator.read_raw_csr, if_neg h1, if_neg h2, if_neg h3, if_neg h4, if_neg h5, if_neg h6, if_neg h7, if_neg h8, if_neg h9, if_neg h10, if_neg h11, if_neg h12, if_neg h13, if_neg h14, if_neg h15, if_neg h16, if_neg h17, if_neg h18, if_neg h19, if_neg h20])

lemma read_csr_cases (st : Emulator) (c : Nat) (h : c >>> 12 = 0) :
    st.read_csr c = .err .IllegralInstruction ∨ ∃ x, st.read_csr c = .ok x := by
  rw [Emulator.read_csr, if_neg (by omega)]
  by_cases h1 : (c >>> 8) &&& 0x3 > st.current_priv.toNat
  · left
    rw [Emulator.check_csr_priv, if_pos h1]
    rfl
  · rw [Emulator.check_csr_priv, if_neg h1]
    simp only [Res.bind]
    by_cases hc : c = 0xc00
    · rw [if_pos hc]
      by_cases hg : st.current_priv ≠ .M ∧ st.csr.mcounteren &&& 0x1 = 0
      · left
        rw [if_pos hg]
      · rw [if_neg hg]
        exact read_raw_cases st c
    · rw [if_neg hc]
      exact read_raw_cases st c

/-- Claim C8 (amended): every CSR instruction writing a CSR whose address
has bits 11:10 = 11 (read-only) raises IllegalInstruction and leaves every
CSR unchanged; CSRRW/CSRRWI also leave rd unchanged (the trap state is
exactly the pre-instruction state, up to the c_instruction scratch field),
while CSRRS/CSRRC/CSRRSI/CSRRCI with a non-zero set/clear operand have
already committed the CSR's read value to rd before the failing write, so
rd holds the read value in the trap state. -/
theorem claim8_readonly_csr_write (st : Emulator)
    (h32 : st.instruction < 2 ^ 32)
    (hop : st.instruction &&& 0x7f = 0x73)
    (hro : ((st.instruction >>> 20) >>> 10) &&& 3 = 3) :
    (((st.instruction >>> 12) &&& 7 = 1 ∨ (st.instruction >>> 12) &&& 7 = 5) →
      st.exec = .trap .IllegralInstruction { st with c_instruction := 0 }) ∧
    (((st.instruction >>> 12) &&& 7 = 2 ∨ (st.instruction >>> 12) &&& 7 = 3) →
      ∀ cval mval,
        ({ st with c_instruction := 0 } : Emulator).read_csr (st.instruction >>> 20) = .ok cval →
        ({ st with c_instruction := 0 } : Emulator).read_reg
            (.X ((st.instruction >>> 15) &&& 0x1f)) = .ok mval →
        mval ≠ 0 →
        ∃ st1, ({ st with c_instruction := 0 } : Emulator).write_reg
            (.X ((st.instruction >>> 7) &&& 0x1f)) cval = .ok st1 ∧
          st.exec = .trap .IllegralInstruction st1 ∧ st1.csr = st.csr) ∧
    (((st.instruction >>> 12) &&& 7 = 6 ∨ (st.instruction >>> 12) &&& 7 = 7) →
      (st.instruction >>> 15) &&& 0x1f ≠ 0 →
      ∀ cval,
        ({ st with c_instruction := 0 } : Emulator).read_csr (st.instruction >>> 20) = .ok cval →
        ∃ st1, ({ st with c_instruction := 0 } : Emulator).write_reg
            (.X ((st.instruction >>> 7) &&& 0x1f)) cval = .ok st1 ∧
          st.exec = .trap .IllegralInstruction st1 ∧ st1.csr = st.csr) := by
  have hne : st.instruction ≠ 0 := by
    intro h
    rw [h] at hop
    simp [Nat.zero_and] at hop
  have h3 : st.instruction &&& 3 = 3 := by
    have he : st.instruction &&& 3 = st.instruction &&& 0x7f &&& 3 := by
      rw [Nat.and_assoc, (by decide : (0x7f &&& 3 : Nat) = 3)]
    rw [he, hop]
    decide
  have hopcode : (st.instruction >>> 2) &&& 0x1f = 28 := by
    have he := congrArg (· >>> 2) hop
    simp only at he
    rw [and_shiftRight, (by decide : (0x7f : Nat) >>> 2 = 0x1f)] at he
    rw [he]
    decide
  have himm12 : (st.instruction >>> 20) >>> 12 = 0 := by
    have hd : (st.instruction >>> 20) >>> 12 = st.instruction / 2 ^ 32 := by
      rw [Nat.shiftRight_eq_div_pow, Nat.shiftRight_eq_div_pow, Nat.div_div_eq_div_mul]
      norm_num
    rw [hd]
    exact Nat.div_eq_of_lt h32
  have hrd31 : (st.instruction >>> 7) &&& 0x1f ≤ 31 := Nat.and_le_right
  have hrs31 : (st.instruction >>> 15) &&& 0x1f ≤ 31 := Nat.and_le_right
  have hstep : st.exec =
      Emulator.execSystem { st with c_instruction := 0 } ((st.instruction >>> 12) &&& 7) := by
    simp [Emulator.exec, hne, h3, hopcode]
  refine ⟨?_, ?_, ?_⟩
  · intro hf
    obtain ⟨v, hv⟩ := read_reg_ok ({ st with c_instruction := 0 }) _ hrs31
    have hwro := write_csr_readonly ({ st with c_instruction := 0 } : Emulator)
      (st.instruction >>> 20)
    rcases hf with hf | hf <;> rw [hstep, hf] <;>
      by_cases hrd : (st.instruction >>> 7) &&& 0x1f = 0
    · simp [Emulator.execSystem, Emulator.execCsrrw, hrd, hv, hwro _ himm12 hro]
    · rcases read_csr_cases ({ st with c_instruction := 0 }) (st.instruction >>> 20) himm12
        with hr | ⟨cval, hr⟩
      · simp [Emulator.execSystem, Emulator.execCsrrw, hrd, hr]
      · simp [Emulator.execSystem, Emulator.execCsrrw, hrd, hr, hv, hwro _ himm12 hro]
    · simp [Emulator.execSystem, Emulator.execCsrrwi, hrd, hwro _ himm12 hro]
    · rcases read_csr_cases ({ st with c_instruction := 0 }) (st.instruction >>> 20) himm12
        with hr | ⟨cval, hr⟩
      · simp [Emulator.execSystem, Emulator.execCsrrwi, hrd, hr]
      · simp [Emulator.execSystem, Emulator.execCsrrwi, hrd, hr, hwro _ himm12 hro]
  · intro hf cval mval hrc hrr hm0
    obtain ⟨st1, hw1, hcsr1, _, _, _⟩ :=
      write_reg_ok ({ st with c_instruction := 0 }) ((st.instruction >>> 7) &&& 0x1f) cval hrd31
    refine ⟨st1, hw1, ?_, hcsr1⟩
    have hwro := write_csr_readonly st1 (st.instruction >>> 20)
    rcases hf with hf | hf <;> rw [hstep, hf] <;>
      simp [Emulator.execSystem, Emulator.execCsrrsc, hrc, hrr, hw1, hm0,
        hwro _ himm12 hro]
  · intro hf hrs0 cval hrc
    obtain ⟨st1, hw1, hcsr1, _, _, _⟩ :=
      write_reg_ok ({ st with c_instruction := 0 }) ((st.instruction >>> 7) &&& 0x1f) cval hrd31
    refine ⟨st1, hw1, ?_, hcsr1⟩
    have hwro := write_csr_readonly st1 (st.instruction >>> 20)
    rcases hf with hf | hf <;> rw [hstep, hf] <;>
      simp [Emulator.execSystem, Emulator.execCsrrsci, hrc, hw1, hrs0,
        hwro _ himm12 hro]

-- CSRRS x1, cycle(0xC00), x2 with x1 = 42, x2 = 1, mcycle = 7.
def claim8State : Emulator :=
  { baseState with
    instruction := (0xc00 <<< 20) ||| (2 <<< 15) ||| (2 <<< 12) ||| (1 <<< 7) ||| 0x73
    csr := { Csr.default with mcycle := 7 }
    regs := fun j => if j = 0 then 42 else if j = 1 then 1 else 0 }

/-- Claim C8 (counterexample): CSRRS x1, cycle, x2 with x2 = 1 raises
IllegalInstruction as claimed (cycle at 0xC00 is read-only), but the
destination register x1, previously 42, holds the CSR's read value 7 in
the trap state: the source writes rd before attempting the CSR write, so
the aborted instruction does modify rd, refuting the frame part of the
claim. -/
theorem claim8_csrrs_modifies_rd_cex :
    claim8State.regs 0 = 42 ∧
    (Emulator.exec claim8State).trapKind = some .IllegralInstruction ∧
    ((Emulator.exec claim8State).trapState.map fun s => s.regs 0) = some 7 := by decide

/-- Witness for claim C8 at the CSRRS instruction of claim8State. -/
theorem claim8_readonly_csr_write_witness :
    ∃ st1, ({ claim8State with c_instruction := 0 } : Emulator).write_reg
        (.X ((claim8State.instruction >>> 7) &&& 0x1f)) 7 = .ok st1 ∧
      claim8State.exec = .trap .IllegralInstruction st1 ∧ st1.csr = claim8State.csr :=
  (claim8_readonly_csr_write claim8State (by decide) (by decide) (by decide)).2.1
    (Or.inl (by decide)) 7 1 (by decide) (by decide) (by decide)

-- ---------------------------------------------------------------------------
-- Claim C9

/-- Claim C9: for the DIV/DIVU/REM/REMU instructions (op 0b01100, funct7 1,
funct3 4/5/6/7), exec writes rd with the corresponding div64/divu64/
rem64/remu64 result of the operand registers and returns the Common flag;
and these functions satisfy the claimed special cases: division by zero
yields all-ones for (signed and unsigned) quotients and the dividend for
remainders, INT64_MIN divided by -1 yields the dividend for DIV and 0 for
REM, and in all other cases they are the truncating signed (Int.tdiv /
Int.tmod through the two's-complement view) or plain unsigned division. -/
theorem claim9_div_rem (st : Emulator)
    (hop : st.instruction &&& 0x7f = 0x33)
    (hf7 : st.instruction >>> 25 = 1)
    (hf3 : (st.instruction >>> 12) &&& 7 = 4 ∨ (st.instruction >>> 12) &&& 7 = 5 ∨
      (st.instruction >>> 12) &&& 7 = 6 ∨ (st.instruction >>> 12) &&& 7 = 7) :
    (∀ x y,
      ({ st with c_instruction := 0 } : Emulator).read_reg
          (.X ((st.instruction >>> 15) &&& 0x1f)) = .ok x →
      ({ st with c_instruction := 0 } : Emulator).read_reg
          (.X ((st.instruction >>> 20) &&& 0x1f)) = .ok y →
      ∃ st', ({ st with c_instruction := 0 } : Emulator).write_reg
          (.X ((st.instruction >>> 7) &&& 0x1f))
          (if (st.instruction >>> 12) &&& 7 = 4 then div64 x y
           else if (st.instruction >>> 12) &&& 7 = 5 then divu64 x y
           else if (st.instruction >>> 12) &&& 7 = 6 then rem64 x y
           else remu64 x y) = .ok st' ∧
        st.exec = .ok st' .Common) ∧
    (∀ x, div64 x 0 = 0xffffffffffffffff) ∧
    (∀ x, rem64 x 0 = x) ∧
    div64 (2 ^ 63) 0xffffffffffffffff = 2 ^ 63 ∧
    rem64 (2 ^ 63) 0xffffffffffffffff = 0 ∧
    (∀ x, divu64 x 0 = 0xffffffffffffffff ∧ remu64 x 0 = x) ∧
    (∀ x y, y ≠ 0 → ¬(x = 2 ^ 63 ∧ y = 0xffffffffffffffff) →
      div64 x y = fromI64 ((toI64 x).tdiv (toI64 y)) ∧
      rem64 x y = fromI64 ((toI64 x).tmod (toI64 y))) ∧
    (∀ x y, y ≠ 0 → divu64 x y = x / y ∧ remu64 x y = x % y) := by
  have hne : st.instruction ≠ 0 := by
    intro h
    rw [h] at hop
    simp [Nat.zero_and] at hop
  have h3 : st.instruction &&& 3 = 3 := by
    have he : st.instruction &&& 3 = st.instruction &&& 0x7f &&& 3 := by
      rw [Nat.and_assoc, (by decide : (0x7f &&& 3 : Nat) = 3)]
    rw [he, hop]
    decide
  have hopcode : (st.instruction >>> 2) &&& 0x1f = 12 := by
    have he := congrArg (· >>> 2) hop
    simp only at he
    rw [and_shiftRight, (by decide : (0x7f : Nat) >>> 2 = 0x1f)] at he
    rw [he]
    decide
  have hrd31 : (st.instruction >>> 7) &&& 0x1f ≤ 31 := Nat.and_le_right
  have hstep : st.exec =
      Emulator.execOp { st with c_instruction := 0 } ((st.instruction >>> 12) &&& 7) := by
    simp [Emulator.exec, hne, h3, hopcode]
  refine ⟨?_, ?_, ?_, ?_, ?_, ?_, ?_, ?_⟩
  · intro x y hx hy
    obtain ⟨st', hw, -, -, -, -⟩ := write_reg_ok ({ st with c_instruction := 0 })
      ((st.instruction >>> 7) &&& 0x1f)
      (if (st.instruction >>> 12) &&& 7 = 4 then div64 x y
       else if (st.instruction >>> 12) &&& 7 = 5 then divu64 x y
       else if (st.instruction >>> 12) &&& 7 = 6 then rem64 x y
       else remu64 x y) hrd31
    refine ⟨st', hw, ?_⟩
    rw [hstep]
    rcases hf3 with hc | hc | hc | hc <;>
      simp [hc] at hw <;>
      simp [Emulator.execOp, hc, hf7, hx, hy, hw]
  · intro x
    simp [div64]
  · intro x
    simp [rem64]
  · simp [div64]
  · simp [rem64]
  · intro x
    simp [divu64, remu64]
  · intro x y hy hxy
    simp only [div64, rem64]
    rw [if_neg hxy, if_neg hy, if_neg hxy, if_neg hy]
    exact ⟨rfl, rfl⟩
  · intro x y hy
    simp [divu64, remu64, hy]

-- ---------------------------------------------------------------------------
-- Claim C10

/-- Claim C10: when SC.W executes (reaching the store-conditional body,
i.e. the alignment check passes — with C enabled in misa it always does),
every completed execution leaves the reservation set equal to the previous
set minus its most recently pushed interval, whether the conditional store
succeeds or fails; with an empty reservation set SC.W writes 1 to rd,
performs no memory write and completes; and with a non-empty set whose
last interval does not cover the access the pop still happens, rd gets 1
and memory is untouched. -/
theorem claim10_scw_reservation (st : Emulator)
    (hop : st.instruction &&& 0x7f = 0x2f)
    (hf3 : (st.instruction >>> 12) &&& 7 = 2)
    (hf7 : st.instruction >>> 27 = 3) :
    ∀ a, ({ st with c_instruction := 0 } : Emulator).read_reg
        (.X ((st.instruction >>> 15) &&& 0x1f)) = .ok a →
      ({ st with c_instruction := 0 } : Emulator).check_misaligned a = .ok () →
      ((∀ st' fl, st.exec = .ok st' fl →
          st'.reserved_memory_ranges = st.reserved_memory_ranges.dropLast ∧ fl = .Common) ∧
        (st.reserved_memory_ranges = [] →
          ∃ st', ({ st with c_instruction := 0 } : Emulator).write_reg
              (.X ((st.instruction >>> 7) &&& 0x1f)) 1 = .ok st' ∧
            st.exec = .ok st' .Common ∧ st'.mem = st.mem) ∧
        (∀ l r, st.reserved_memory_ranges = l ++ [r] → ¬(r.1 ≤ a ∧ r.2 ≥ a + 4) →
          ∃ st', ({ st with c_instruction := 0, reserved_memory_ranges := l } :
              Emulator).write_reg (.X ((st.instruction >>> 7) &&& 0x1f)) 1 = .ok st' ∧
            st.exec = .ok st' .Common ∧ st'.mem = st.mem ∧
            st'.reserved_memory_ranges = l)) := by
  intro a ha hcm
  have hne : st.instruction ≠ 0 := by
    intro h
    rw [h] at hop
    simp [Nat.zero_and] at hop
  have h3 : st.instruction &&& 3 = 3 := by
    have he : st.instruction &&& 3 = st.instruction &&& 0x7f &&& 3 := by
      rw [Nat.and_assoc, (by decide : (0x7f &&& 3 : Nat) = 3)]
    rw [he, hop]
    decide
  have hopcode : (st.instruction >>> 2) &&& 0x1f = 11 := by
    have he := congrArg (· >>> 2) hop
    simp only at he
    rw [and_shiftRight, (by decide : (0x7f : Nat) >>> 2 = 0x1f)] at he
    rw [he]
    decide
  have hf7' : (st.instruction >>> 25) >>> 2 = 3 := by
    rw [← Nat.shiftRight_add]
    exact hf7
  have hrd31 : (st.instruction >>> 7) &&& 0x1f ≤ 31 := Nat.and_le_right
  have hrs231 : (st.instruction >>> 20) &&& 0x1f ≤ 31 := Nat.and_le_right
  have hstep : st.exec =
      Emulator.scW { st with c_instruction := 0 } ((st.instruction >>> 7) &&& 0x1f)
        ((st.instruction >>> 20) &&& 0x1f) a := by
    simp [Emulator.exec, hne, h3, hopcode, Emulator.execAtomic, hf3, ha, hcm, hf7']
  refine ⟨?_, ?_, ?_⟩
  · -- the reservation set always loses its last interval when exec completes
    intro st' fl heq
    rw [hstep] at heq
    rcases hl : st.reserved_memory_ranges.getLast? with - | r
    · have hnil : st.reserved_memory_ranges = [] := List.getLast?_eq_none_iff.mp hl
      obtain ⟨st1, hw, -, -, hres, -⟩ := write_reg_ok ({ st with c_instruction := 0 })
        ((st.instruction >>> 7) &&& 0x1f) 1 hrd31
      have hexec : Emulator.scW { st with c_instruction := 0 }
          ((st.instruction >>> 7) &&& 0x1f) ((st.instruction >>> 20) &&& 0x1f) a =
          .ok st1 .Common := by
        rw [Emulator.scW]
        simp [Emulator.pop_reserved_memory_range, hl, hw]
      rw [hexec] at heq
      cases heq
      exact ⟨by rw [hres, hnil]; rfl, rfl⟩
    · by_cases hex : a = st.riscv_tests_exit_memory_address
      · subst hex
        by_cases hcov : r.1 ≤ st.riscv_tests_exit_memory_address ∧
            r.2 ≥ st.riscv_tests_exit_memory_address + 4
        · obtain ⟨w, hwrs⟩ := read_reg_ok
            ({ st with
              c_instruction := 0
              reserved_memory_ranges := st.reserved_memory_ranges.dropLast })
            ((st.instruction >>> 20) &&& 0x1f) hrs231
          rcases hmw : Memory.write MEMORY_SIZE st.mem st.riscv_tests_exit_memory_address
              (toLeBytes 4 (w % 4294967296)) with - | m
          · have hexec : Emulator.scW { st with c_instruction := 0 }
                ((st.instruction >>> 7) &&& 0x1f) ((st.instruction >>> 20) &&& 0x1f)
                st.riscv_tests_exit_memory_address = .crash := by
              rw [Emulator.scW]
              simp [Emulator.pop_reserved_memory_range, hl, hcov, hwrs,
                Emulator.write_memory, hmw]
            rw [hexec] at heq
            cases heq
          · obtain ⟨st3, hw0, -, -, hres3, -⟩ := write_reg_ok
              ({ st with
                c_instruction := 0
                reserved_memory_ranges := st.reserved_memory_ranges.dropLast
                riscv_tests_finished := true
                mem := m })
              ((st.instruction >>> 7) &&& 0x1f) 0 hrd31
            have hexec : Emulator.scW { st with c_instruction := 0 }
                ((st.instruction >>> 7) &&& 0x1f) ((st.instruction >>> 20) &&& 0x1f)
                st.riscv_tests_exit_memory_address = .ok st3 .Common := by
              rw [Emulator.scW]
              simp [Emulator.pop_reserved_memory_range, hl, hcov, hwrs,
                Emulator.write_memory, hmw, hw0]
            rw [hexec] at heq
            cases heq
            exact ⟨by rw [hres3], rfl⟩
        · obtain ⟨st1, hw, -, -, hres, -⟩ := write_reg_ok
            ({ st with
              c_instruction := 0
              reserved_memory_ranges := st.reserved_memory_ranges.dropLast })
            ((st.instruction >>> 7) &&& 0x1f) 1 hrd31
          have hexec : Emulator.scW { st with c_instruction := 0 }
              ((st.instruction >>> 7) &&& 0x1f) ((st.instruction >>> 20) &&& 0x1f)
              st.riscv_tests_exit_memory_address = .ok st1 .Common := by
            rw [Emulator.scW]
            simp [Emulator.pop_reserved_memory_range, hl, hcov, hw]
          rw [hexec] at heq
          cases heq
          exact ⟨by rw [hres], rfl⟩
      · by_cases hcov : r.1 ≤ a ∧ r.2 ≥ a + 4
        · obtain ⟨w, hwrs⟩ := read_reg_ok
            ({ st with
              c_instruction := 0
              reserved_memory_ranges := st.reserved_memory_ranges.dropLast })
            ((st.instruction >>> 20) &&& 0x1f) hrs231
          rcases hmw : Memory.write MEMORY_SIZE st.mem a (toLeBytes 4 (w % 4294967296)) with - | m
          · have hexec : Emulator.scW { st with c_instruction := 0 }
                ((st.instruction >>> 7) &&& 0x1f) ((st.instruction >>> 20) &&& 0x1f) a =
                .crash := by
              rw [Emulator.scW]
              simp [Emulator.pop_reserved_memory_range, hl, hcov, hwrs,
                Emulator.write_memory, hex, hmw]
            rw [hexec] at heq
            cases heq
          · obtain ⟨st3, hw0, -, -, hres3, -⟩ := write_reg_ok
              ({ st with
                c_instruction := 0
                reserved_memory_ranges := st.reserved_memory_ranges.dropLast
                mem := m })
              ((st.instruction >>> 7) &&& 0x1f) 0 hrd31
            have hexec : Emulator.scW { st with c_instruction := 0 }
                ((st.instruction >>> 7) &&& 0x1f) ((st.instruction >>> 20) &&& 0x1f) a =
                .ok st3 .Common := by
              rw [Emulator.scW]
              simp [Emulator.pop_reserved_memory_range, hl, hcov, hwrs,
                Emulator.write_memory, hex, hmw, hw0]
            rw [hexec] at heq
            cases heq
            exact ⟨by rw [hres3], rfl⟩
        · obtain ⟨st1, hw, -, -, hres, -⟩ := write_reg_ok
            ({ st with
              c_instruction := 0
              reserved_memory_ranges := st.reserved_memory_ranges.dropLast })
            ((st.instruction >>> 7) &&& 0x1f) 1 hrd31
          have hexec : Emulator.scW { st with c_instruction := 0 }
              ((st.instruction >>> 7) &&& 0x1f) ((st.instruction >>> 20) &&& 0x1f) a =
              .ok st1 .Common := by
            rw [Emulator.scW]
            simp [Emulator.pop_reserved_memory_range, hl, hcov, hw]
          rw [hexec] at heq
          cases heq
          exact ⟨by rw [hres], rfl⟩
  · -- empty reservation set: rd := 1 and no memory write
    intro hnil
    obtain ⟨st1, hw, -, hmem, -, -⟩ := write_reg_ok ({ st with c_instruction := 0 })
      ((st.instruction >>> 7) &&& 0x1f) 1 hrd31
    refine ⟨st1, hw, ?_, hmem⟩
    rw [hstep, Emulator.scW]
    rw [hnil] at hw
    simp [Emulator.pop_reserved_memory_range, hnil, hw]
  · -- failing store-conditional: interval popped, rd := 1, no memory write
    intro l r hsplit hncov
    obtain ⟨st1, hw, -, hmem, hres, -⟩ := write_reg_ok
      ({ st with
        c_instruction := 0
        reserved_memory_ranges := l })
      ((st.instruction >>> 7) &&& 0x1f) 1 hrd31
    refine ⟨st1, hw, ?_, hmem, by rw [hres]⟩
    rw [hstep, Emulator.scW]
    simp [Emulator.pop_reserved_memory_range, hsplit, List.getLast?_concat,
      List.dropLast_concat, hncov, hw]

-- DIV x3, x1, x2 with x1 = 7, x2 = 0.
def claim9State : Emulator :=
  { baseState with
    instruction := (1 <<< 25) ||| (2 <<< 20) ||| (1 <<< 15) ||| (4 <<< 12) ||| (3 <<< 7) ||| 0x33
    regs := fun j => if j = 0 then 7 else 0 }

/-- Witness for claim C9: DIV x3, x1, x2 with x1 = 7 and x2 = 0. -/
theorem claim9_div_rem_witness :
    ∃ st', ({ claim9State with c_instruction := 0 } : Emulator).write_reg
        (.X ((claim9State.instruction >>> 7) &&& 0x1f))
        (if (claim9State.instruction >>> 12) &&& 7 = 4 then div64 7 0
         else if (claim9State.instruction >>> 12) &&& 7 = 5 then divu64 7 0
         else if (claim9State.instruction >>> 12) &&& 7 = 6 then rem64 7 0
         else remu64 7 0) = .ok st' ∧
      claim9State.exec = .ok st' .Common :=
  (claim9_div_rem claim9State (by decide) (by decide) (Or.inl (by decide))).1 7 0
    (by decide) (by decide)

-- SC.W x3, x2, (x1) with x1 = 8 and an empty reservation set.
def claim10State : Emulator :=
  { baseState with
    instruction := (12 <<< 25) ||| (2 <<< 20) ||| (1 <<< 15) ||| (2 <<< 12) ||| (3 <<< 7) ||| 0x2f
    regs := fun j => if j = 0 then 8 else 0 }

/-- Witness for claim C10: SC.W with an empty reservation set writes 1 to
rd, leaves memory untouched and completes. -/
theorem claim10_scw_reservation_witness :
    claim10State.reserved_memory_ranges = [] ∧
    ∃ st', ({ claim10State with c_instruction := 0 } : Emulator).write_reg
        (.X ((claim10State.instruction >>> 7) &&& 0x1f)) 1 = .ok st' ∧
      claim10State.exec = .ok st' .Common ∧ st'.mem = claim10State.mem :=
  ⟨rfl, (claim10_scw_reservation claim10State (by decide) (by decide) (by decide) 8
    (by decide) (by decide)).2.1 rfl⟩

end RV
